import Mathlib

/-!
Verification of the ApexQuant simulated-exchange core.

Shallow embedding of the C++ sources:
  - cpp/src/simulation/simulated_exchange.cpp (SimulatedExchange)
  - the current order matcher (OrderMatcher with validate_order_volume and
    calculate_total_commission, matching cpp/include/simulation/order_matcher.h)
  - simulation_account.cpp (SimulationAccount)
  - cpp/src/simulation/limit_queue.cpp (LimitQueue)
  - cpp/include/simulation/simulation_types.h (data structures)

Conventions of the embedding:
  - C++ double is modelled as Rat (exact arithmetic); std::round is modelled
    half-away-from-zero, as cppRound below.
  - C++ int64_t arithmetic is modelled as Int; int64_t division truncates
    toward zero, modelled by Int.tdiv; size_t division is Nat division.
  - std::unordered_map is modelled as an association list; operator[] insertion
    appends at the end, lookup/update/erase act on the first matching key.
  - The uniform random draw of OrderMatcher (dist_(rng_), a value in [-1, 1])
    is an explicit oracle parameter u; when a call path draws twice (the
    large-order branch of calculate_slippage), u stands for the draw that is
    actually used.  on_tick consumes one oracle value per order it matches.
  - Wall-clock reads (std::chrono::system_clock::now) are explicit now_ms
    parameters.
-/

namespace ApexQuant

/-- C++ std::round: rounding halfway cases away from zero. -/
def cppRound (x : ℚ) : ℤ := if 0 ≤ x then ⌊x + 1/2⌋ else -⌊-x + 1/2⌋

/-- Shared helper round_to_cent of SimulationAccount, OrderMatcher and
LimitQueue: std::round(value * 100.0) / 100.0. -/
def round_to_cent (value : ℚ) : ℚ := (cppRound (value * 100) : ℚ) / 100

/-- C++ std::string::find(pat) != npos, i.e. pat occurs somewhere in s. -/
def str_contains (s pat : String) : Bool :=
  (List.range (s.data.length + 1)).any (fun i => pat.data.isPrefixOf (s.data.drop i))

/-- C++ test: symbol.length() >= 1 and symbol[0] == c. -/
def head_is (s : String) (c : Char) : Bool :=
  match s.data with
  | [] => false
  | d :: _ => d == c

/-- Lookup of the first entry with the given key in an association list
(std::unordered_map find). -/
def alist_lookup {α : Type} : List (String × α) → String → Option α
  | [], _ => none
  | (k, v) :: rest, key => if k = key then some v else alist_lookup rest key

/-- Replace the value of the first entry with the given key (in-place mutation
of a map entry). -/
def alist_update {α : Type} (key : String) (f : α → α) : List (String × α) → List (String × α)
  | [] => []
  | (k, v) :: rest => if k = key then (k, f v) :: rest else (k, v) :: alist_update key f rest

/-- Remove the first entry with the given key (map erase). -/
def alist_erase {α : Type} (key : String) : List (String × α) → List (String × α)
  | [] => []
  | (k, v) :: rest => if k = key then rest else (k, v) :: alist_erase key rest

/-- OrderSide from simulation_types.h. -/
inductive OrderSide where
  | BUY
  | SELL
deriving DecidableEq, Repr

/-- OrderType from simulation_types.h. -/
inductive OrderType where
  | MARKET
  | LIMIT
deriving DecidableEq, Repr

/-- OrderStatus from simulation_types.h. -/
inductive OrderStatus where
  | PENDING
  | PARTIAL_FILLED
  | FILLED
  | CANCELLED
  | REJECTED
deriving DecidableEq, Repr

/-- The fields of the Tick structure that the simulation core reads. -/
structure Tick where
  symbol : String
  timestamp : ℤ
  last_price : ℚ
  bid_price : ℚ
  ask_price : ℚ
  volume : ℤ
  last_close : ℚ
deriving DecidableEq, Repr

/-- SimulatedOrder from simulation_types.h. -/
structure SimulatedOrder where
  order_id : String
  symbol : String
  side : OrderSide
  type : OrderType
  price : ℚ
  volume : ℤ
  filled_volume : ℤ
  status : OrderStatus
  submit_time : ℤ
  cancel_time : ℤ
  filled_time : ℤ
  commission_rate : ℚ
  slippage_rate : ℚ
deriving DecidableEq, Repr

/-- Position from simulation_types.h. -/
structure Position where
  symbol : String
  volume : ℤ
  available_volume : ℤ
  frozen_volume : ℤ
  avg_cost : ℚ
  current_price : ℚ
  market_value : ℚ
  unrealized_pnl : ℚ
  buy_date : ℤ
deriving DecidableEq, Repr

/-- The four-argument Position constructor: available_volume = 0 (T+1),
frozen_volume = 0, current_price = cost, market_value = vol * cost (not
rounded in the constructor), unrealized_pnl = 0. -/
def Position.create (sym : String) (vol : ℤ) (cost : ℚ) (date : ℤ) : Position :=
  { symbol := sym, volume := vol, available_volume := 0, frozen_volume := 0,
    avg_cost := cost, current_price := cost, market_value := vol * cost,
    unrealized_pnl := 0, buy_date := date }

/-- TradeRecord from simulation_types.h. -/
structure TradeRecord where
  trade_id : String
  order_id : String
  symbol : String
  side : OrderSide
  price : ℚ
  volume : ℤ
  commission : ℚ
  trade_time : ℤ
  realized_pnl : ℚ
deriving DecidableEq, Repr

/-- Default-constructed TradeRecord. -/
def TradeRecord.empty : TradeRecord :=
  { trade_id := "", order_id := "", symbol := "", side := OrderSide.BUY,
    price := 0, volume := 0, commission := 0, trade_time := 0, realized_pnl := 0 }

/-- MatchResult from simulation_types.h. -/
structure MatchResult where
  success : Bool
  filled_price : ℚ
  filled_volume : ℤ
  reject_reason : String
deriving DecidableEq, Repr

/-- The success constructor MatchResult(price, volume). -/
def MatchResult.filled (price : ℚ) (volume : ℤ) : MatchResult :=
  { success := true, filled_price := price, filled_volume := volume, reject_reason := "" }

/-- The failure constructor MatchResult(reason). -/
def MatchResult.rejected (reason : String) : MatchResult :=
  { success := false, filled_price := 0, filled_volume := 0, reject_reason := reason }

/-- The mutable state of SimulationAccount (simulation_account.cpp). -/
structure SimulationAccount where
  account_id : String
  initial_capital : ℚ
  available_cash : ℚ
  withdrawable_cash : ℚ
  frozen_cash : ℚ
  today_sell_amount : ℚ
  realized_pnl : ℚ
  positions : List (String × Position)
deriving DecidableEq, Repr

namespace SimulationAccount

/-- SimulationAccount constructor (the C++ constructor also throws when
initial_capital <= 0; no claim concerns that path). -/
def init (account_id : String) (initial_capital : ℚ) : SimulationAccount :=
  { account_id := account_id, initial_capital := initial_capital,
    available_cash := initial_capital, withdrawable_cash := initial_capital,
    frozen_cash := 0, today_sell_amount := 0, realized_pnl := 0, positions := [] }

/-- SimulationAccount::freeze_cash. -/
def freeze_cash (a : SimulationAccount) (amount : ℚ) : Bool × SimulationAccount :=
  if amount < 0 then (false, a)
  else
    let amount := round_to_cent amount
    if a.available_cash < amount then (false, a)
    else (true, { a with available_cash := a.available_cash - amount,
                         frozen_cash := a.frozen_cash + amount })

/-- SimulationAccount::unfreeze_cash. -/
def unfreeze_cash (a : SimulationAccount) (amount : ℚ) : SimulationAccount :=
  if amount < 0 then a
  else
    let amount := min (round_to_cent amount) a.frozen_cash
    { a with frozen_cash := a.frozen_cash - amount,
             available_cash := a.available_cash + amount }

/-- SimulationAccount::add_position. -/
def add_position (a : SimulationAccount) (symbol : String) (volume : ℤ) (price : ℚ)
    (buy_date : ℤ) : Bool × SimulationAccount :=
  if symbol = "" then (false, a)
  else if volume ≤ 0 ∨ price ≤ 0 then (false, a)
  else if 1000000000 < volume then (false, a)
  else if 1000000 < price then (false, a)
  else
    let price := round_to_cent price
    let cost := round_to_cent (volume * price)
    match alist_lookup a.positions symbol with
    | none =>
      (true, { a with positions := a.positions ++ [(symbol, Position.create symbol volume price buy_date)] })
    | some pos =>
      let total_cost := pos.volume * pos.avg_cost + cost
      let volume2 := pos.volume + volume
      let avg := round_to_cent (total_cost / volume2)
      let mv := round_to_cent (volume2 * pos.current_price)
      let pos2 := { pos with volume := volume2, avg_cost := avg, market_value := mv,
                             unrealized_pnl := round_to_cent (mv - volume2 * avg) }
      (true, { a with positions := alist_update symbol (fun _ => pos2) a.positions })

/-- SimulationAccount::reduce_position; returns (ok, realized_pnl, account). -/
def reduce_position (a : SimulationAccount) (symbol : String) (volume : ℤ)
    (sell_price : ℚ) : Bool × ℚ × SimulationAccount :=
  if volume ≤ 0 ∨ sell_price ≤ 0 then (false, 0, a)
  else
    match alist_lookup a.positions symbol with
    | none => (false, 0, a)
    | some pos =>
      if pos.volume < volume then (false, 0, a)
      else
        let sell_price := round_to_cent sell_price
        let cost := round_to_cent (volume * pos.avg_cost)
        let revenue := round_to_cent (volume * sell_price)
        let realized := round_to_cent (revenue - cost)
        let a := { a with realized_pnl := a.realized_pnl + realized,
                          available_cash := a.available_cash + revenue,
                          today_sell_amount := a.today_sell_amount + revenue }
        let volume2 := pos.volume - volume
        if volume2 = 0 then
          (true, realized, { a with positions := alist_erase symbol a.positions })
        else
          let mv := round_to_cent (volume2 * pos.current_price)
          let pos2 := { pos with volume := volume2,
                                 available_volume := max 0 (pos.available_volume - volume),
                                 market_value := mv,
                                 unrealized_pnl := round_to_cent (mv - volume2 * pos.avg_cost) }
          (true, realized, { a with positions := alist_update symbol (fun _ => pos2) a.positions })

/-- SimulationAccount::update_position_price. -/
def update_position_price (a : SimulationAccount) (symbol : String) (current_price : ℚ) :
    SimulationAccount :=
  match alist_lookup a.positions symbol with
  | none => a
  | some _ =>
    let f := fun (pos : Position) =>
      let cp := round_to_cent current_price
      let mv := round_to_cent (pos.volume * cp)
      { pos with current_price := cp, market_value := mv,
                 unrealized_pnl := round_to_cent (mv - pos.volume * pos.avg_cost) }
    { a with positions := alist_update symbol f a.positions }

/-- Per-position step of SimulationAccount::update_available_volume and of the
position loop in daily_settlement: positions bought strictly before
current_date become fully sellable. -/
def unlock_pos (current_date : ℤ) (pos : Position) : Position :=
  if pos.buy_date < current_date then
    { pos with available_volume := pos.volume - pos.frozen_volume }
  else pos

/-- SimulationAccount::update_available_volume. -/
def update_available_volume (a : SimulationAccount) (current_date : ℤ) : SimulationAccount :=
  { a with positions := a.positions.map (fun e => (e.1, unlock_pos current_date e.2)) }

/-- SimulationAccount::daily_settlement. -/
def daily_settlement (a : SimulationAccount) (current_date : ℤ) : SimulationAccount :=
  { a with withdrawable_cash := a.available_cash,
           today_sell_amount := 0,
           positions := a.positions.map (fun e => (e.1, unlock_pos current_date e.2)) }

/-- SimulationAccount::can_sell. -/
def can_sell (a : SimulationAccount) (symbol : String) (volume : ℤ) (current_date : ℤ) : Bool :=
  match alist_lookup a.positions symbol with
  | none => false
  | some pos =>
    if pos.buy_date = current_date then decide (volume ≤ pos.available_volume)
    else decide (volume ≤ pos.volume - pos.frozen_volume)

/-- SimulationAccount::freeze_position. -/
def freeze_position (a : SimulationAccount) (symbol : String) (volume : ℤ) :
    Bool × SimulationAccount :=
  if volume ≤ 0 then (false, a)
  else
    match alist_lookup a.positions symbol with
    | none => (false, a)
    | some pos =>
      if pos.volume - pos.frozen_volume < volume then (false, a)
      else
        let f := fun (p : Position) => { p with frozen_volume := p.frozen_volume + volume }
        (true, { a with positions := alist_update symbol f a.positions })

/-- SimulationAccount::unfreeze_position. -/
def unfreeze_position (a : SimulationAccount) (symbol : String) (volume : ℤ) :
    SimulationAccount :=
  if volume ≤ 0 then a
  else
    match alist_lookup a.positions symbol with
    | none => a
    | some _ =>
      let f := fun (p : Position) => { p with frozen_volume := max 0 (p.frozen_volume - volume) }
      { a with positions := alist_update symbol f a.positions }

end SimulationAccount

namespace OrderMatcher

/-- Default slippage rate of the OrderMatcher constructor (0.0001); the
exchange constructs its matcher with all defaults. -/
def default_slippage_rate : ℚ := 1/10000

/-- Default stamp tax rate of the OrderMatcher constructor (0.001). -/
def stamp_tax_rate : ℚ := 1/1000

/-- OrderMatcher::get_limit_pct (also duplicated verbatim in LimitQueue). -/
def get_limit_pct (symbol : String) : ℚ :=
  if str_contains symbol "ST" || str_contains symbol "st" then 5/100
  else if "688".data.isPrefixOf symbol.data then 20/100
  else if "300".data.isPrefixOf symbol.data then 20/100
  else if head_is symbol '8' || head_is symbol '4' then 30/100
  else 10/100

/-- OrderMatcher::validate_order_volume; returns (ok, message).  The C++
declaration defaults available_volume to 0 and the matcher calls it that way. -/
def validate_order_volume (volume : ℤ) (side : OrderSide) (available_volume : ℤ) :
    Bool × String :=
  if volume ≤ 0 then (false, "Order volume must be positive")
  else if 1000000 < volume then (false, "Order volume exceeds maximum (1,000,000 shares)")
  else if side = OrderSide.BUY ∧ volume % 100 ≠ 0 then
    (false, "Buy volume must be multiple of 100 (lot size)")
  else if side = OrderSide.SELL ∧ 0 < available_volume ∧ available_volume < volume then
    (false, "Sell volume exceeds available volume")
  else (true, "OK")

/-- OrderMatcher::check_limit_price (this variant does not round the limit
prices). -/
def check_limit_price (symbol : String) (price last_close : ℚ) : Bool :=
  if last_close ≤ 0 then true
  else
    let pct := get_limit_pct symbol
    decide (last_close * (1 - pct) ≤ price) && decide (price ≤ last_close * (1 + pct))

/-- OrderMatcher::check_liquidity: at most a tenth of the tick volume. -/
def check_liquidity (volume : ℤ) (tick : Tick) : Bool :=
  if tick.volume ≤ 0 then true
  else decide (volume ≤ Int.tdiv tick.volume 10)

/-- OrderMatcher::calculate_slippage.  u is the uniform draw from [-1, 1]
that the C++ code obtains from dist_(rng_); when volume > 10000 the code
redraws with the rate scaled by 1.5, and u stands for that second draw. -/
def calculate_slippage (side : OrderSide) (base_price : ℚ) (volume : ℤ)
    (slippage_rate : ℚ) (u : ℚ) : ℚ :=
  let rate := if 10000 < volume then slippage_rate * (3/2) else slippage_rate
  let random_slippage := rate * u
  let actual := if side = OrderSide.BUY then |random_slippage| else -|random_slippage|
  round_to_cent (base_price * (1 + actual))

/-- OrderMatcher::try_match_order (the current matcher, the one that matches
order_matcher.h: volume validation first, then base price, price-limit check,
liquidity, slippage). -/
def try_match_order (order : SimulatedOrder) (tick : Tick) (check_price_limit : Bool)
    (u : ℚ) : MatchResult :=
  let v := validate_order_volume order.volume order.side 0
  if v.1 = false then MatchResult.rejected v.2
  else
    let base? : Except String ℚ :=
      if order.type = OrderType.MARKET then
        Except.ok (if order.side = OrderSide.BUY then tick.ask_price else tick.bid_price)
      else if order.side = OrderSide.BUY then
        if order.price < tick.ask_price then Except.error "Buy limit price too low"
        else Except.ok order.price
      else
        if tick.bid_price < order.price then Except.error "Sell limit price too high"
        else Except.ok order.price
    match base? with
    | Except.error reason => MatchResult.rejected reason
    | Except.ok base_price =>
      if check_price_limit && decide (0 < tick.last_close)
         && !(check_limit_price order.symbol base_price tick.last_close) then
        if order.side = OrderSide.BUY then MatchResult.rejected "Price at limit up - queuing"
        else MatchResult.rejected "Price at limit down - queuing"
      else if !(check_liquidity order.volume tick) then
        MatchResult.rejected "Insufficient liquidity"
      else
        let rate := if 0 < order.slippage_rate then order.slippage_rate else default_slippage_rate
        MatchResult.filled (calculate_slippage order.side base_price order.volume rate u)
          order.volume

/-- OrderMatcher::calculate_total_commission: broker commission with a 5 yuan
floor, stamp duty on sells, and the Shanghai transfer fee of 0.00002 yuan per
share (symbol starting with character 6 or with the string sh.6), the sum
rounded to cents.  The stamp rate is the constructor default. -/
def calculate_total_commission (side : OrderSide) (symbol : String) (price : ℚ)
    (volume : ℤ) (commission_rate : ℚ) : ℚ :=
  let amount := price * volume
  let commission := max (amount * commission_rate) 5
  let total := commission + (if side = OrderSide.SELL then amount * stamp_tax_rate else 0)
  let is_shanghai := head_is symbol '6' || "sh.6".data.isPrefixOf symbol.data
  let total := total + (if is_shanghai then (volume : ℚ) * (2/100000) else 0)
  round_to_cent total

end OrderMatcher

/-- The two per-symbol FIFO maps of limit_queue.cpp. -/
structure LimitQueue where
  limit_up_queues : List (String × List SimulatedOrder)
  limit_down_queues : List (String × List SimulatedOrder)
deriving DecidableEq, Repr

namespace LimitQueue

/-- Freshly constructed LimitQueue. -/
def init : LimitQueue := { limit_up_queues := [], limit_down_queues := [] }

/-- Push onto a per-symbol queue, creating the map entry when absent
(unordered_map operator[] followed by push_back). -/
def enqueue (queues : List (String × List SimulatedOrder)) (order : SimulatedOrder) :
    List (String × List SimulatedOrder) :=
  match alist_lookup queues order.symbol with
  | none => queues ++ [(order.symbol, [order])]
  | some _ => alist_update order.symbol (fun l => l ++ [order]) queues

/-- LimitQueue::add_to_limit_up_queue. -/
def add_to_limit_up_queue (q : LimitQueue) (order : SimulatedOrder) : LimitQueue :=
  { q with limit_up_queues := enqueue q.limit_up_queues order }

/-- LimitQueue::add_to_limit_down_queue. -/
def add_to_limit_down_queue (q : LimitQueue) (order : SimulatedOrder) : LimitQueue :=
  { q with limit_down_queues := enqueue q.limit_down_queues order }

/-- LimitQueue::calculate_limit_up_price: the limit price is rounded to cents. -/
def calculate_limit_up_price (symbol : String) (last_close : ℚ) : ℚ :=
  round_to_cent (last_close * (1 + OrderMatcher.get_limit_pct symbol))

/-- LimitQueue::calculate_limit_down_price. -/
def calculate_limit_down_price (symbol : String) (last_close : ℚ) : ℚ :=
  round_to_cent (last_close * (1 - OrderMatcher.get_limit_pct symbol))

/-- LimitQueue::is_at_limit_up: within 0.01 of the rounded limit-up price. -/
def is_at_limit_up (symbol : String) (price last_close : ℚ) : Bool :=
  if last_close ≤ 0 then false
  else decide (|price - calculate_limit_up_price symbol last_close| < 1/100)

/-- LimitQueue::is_at_limit_down. -/
def is_at_limit_down (symbol : String) (price last_close : ℚ) : Bool :=
  if last_close ≤ 0 then false
  else decide (|price - calculate_limit_down_price symbol last_close| < 1/100)

/-- Common drain logic of try_fill_limit_up_orders / try_fill_limit_down_orders
on one per-symbol map, given whether the price is still at the limit:
when the price has opened the whole queue is moved out and the map entry is
erased; while still at the limit, max(1, size/10) orders leave the front. -/
def drain (queues : List (String × List SimulatedOrder)) (symbol : String)
    (still_at_limit : Bool) : List SimulatedOrder × List (String × List SimulatedOrder) :=
  match alist_lookup queues symbol with
  | none => ([], queues)
  | some queue =>
    if queue.isEmpty then ([], queues)
    else if still_at_limit = false then (queue, alist_erase symbol queues)
    else
      let can_fill := max 1 (queue.length / 10)
      (queue.take can_fill, alist_update symbol (fun l => l.drop can_fill) queues)

/-- LimitQueue::try_fill_limit_up_orders; returns the released orders and the
new queue state. -/
def try_fill_limit_up_orders (q : LimitQueue) (symbol : String) (tick : Tick) :
    List SimulatedOrder × LimitQueue :=
  let r := drain q.limit_up_queues symbol (is_at_limit_up symbol tick.last_price tick.last_close)
  (r.1, { q with limit_up_queues := r.2 })

/-- LimitQueue::try_fill_limit_down_orders. -/
def try_fill_limit_down_orders (q : LimitQueue) (symbol : String) (tick : Tick) :
    List SimulatedOrder × LimitQueue :=
  let r := drain q.limit_down_queues symbol (is_at_limit_down symbol tick.last_price tick.last_close)
  (r.1, { q with limit_down_queues := r.2 })

end LimitQueue

/-- The mutable state of SimulatedExchange (simulated_exchange.cpp): account,
order registry, trade history, current time and the order-id counter.
The class holds no LimitQueue. -/
structure SimulatedExchange where
  account : SimulationAccount
  orders : List (String × SimulatedOrder)
  trade_history : List TradeRecord
  current_time : ℤ
  order_counter : ℤ
deriving DecidableEq, Repr

namespace SimulatedExchange

/-- SimulatedExchange constructor. -/
def init (account_id : String) (initial_capital : ℚ) : SimulatedExchange :=
  { account := SimulationAccount.init account_id initial_capital,
    orders := [], trade_history := [], current_time := 0, order_counter := 0 }

/-- SimulatedExchange::generate_order_id; now_ms is the wall-clock read. -/
def generate_order_id (now_ms : ℤ) (symbol : String) (counter : ℤ) : String :=
  "ORDER_" ++ toString now_ms ++ "_" ++ symbol ++ "_" ++ toString counter

/-- SimulatedExchange::calculate_commission: the fee the exchange itself
records on fills: turnover * 0.00025 floored at 5 yuan, plus stamp duty
turnover * 0.001 for sells, rounded to cents. -/
def calculate_commission (side : OrderSide) (filled_price : ℚ) (filled_volume : ℤ) : ℚ :=
  let turnover := filled_price * filled_volume
  let commission := max (turnover * (25/100000)) 5
  let commission := if side = OrderSide.SELL then commission + turnover * (1/1000) else commission
  round_to_cent commission

/-- The pessimistic cash reservation recomputed at four places in
simulated_exchange.cpp: volume * (price for LIMIT, 1000000.0 for MARKET) * 1.003. -/
def freeze_amount_of (order : SimulatedOrder) : ℚ :=
  let estimate_price := if order.type = OrderType.LIMIT then order.price else 1000000
  order.volume * estimate_price * (1003/1000)

/-- SimulatedExchange::process_reject: reverse the reservation, mark REJECTED. -/
def process_reject (a : SimulationAccount) (order : SimulatedOrder) :
    SimulatedOrder × SimulationAccount :=
  let a :=
    if order.side = OrderSide.BUY then a.unfreeze_cash (freeze_amount_of order)
    else a.unfreeze_position order.symbol order.volume
  ({ order with status := OrderStatus.REJECTED }, a)

/-- SimulatedExchange::process_fill.  now is the value of current_time_ when
the fill happens (set from the tick timestamp by on_tick). -/
def process_fill (a : SimulationAccount) (hist : List TradeRecord)
    (order : SimulatedOrder) (m : MatchResult) (current_date now : ℤ) :
    SimulatedOrder × SimulationAccount × List TradeRecord :=
  let commission := calculate_commission order.side m.filled_price m.filled_volume
  let mk_trade := fun (realized : ℚ) =>
    { trade_id := "TRADE_" ++ toString now ++ "_" ++ toString (hist.length + 1),
      order_id := order.order_id, symbol := order.symbol, side := order.side,
      price := m.filled_price, volume := m.filled_volume, commission := commission,
      trade_time := now, realized_pnl := realized : TradeRecord }
  let filled_order :=
    { order with status := OrderStatus.FILLED, filled_volume := m.filled_volume,
                 filled_time := now }
  if order.side = OrderSide.BUY then
    let actual_cost := m.filled_volume * m.filled_price + commission
    let a := a.unfreeze_cash (freeze_amount_of order)
    let r := a.freeze_cash actual_cost
    if r.1 = false then
      let pr := process_reject r.2 order
      (pr.1, pr.2, hist)
    else
      let a := r.2.unfreeze_cash actual_cost
      let a := (a.add_position order.symbol m.filled_volume m.filled_price current_date).2
      (filled_order, a, hist ++ [mk_trade 0])
  else
    let r := a.reduce_position order.symbol m.filled_volume m.filled_price
    if r.1 = false then
      let pr := process_reject r.2.2 order
      (pr.1, pr.2, hist)
    else
      let a := (r.2.2.freeze_cash commission).2
      let a := a.unfreeze_cash commission
      let a := a.unfreeze_position order.symbol m.filled_volume
      (filled_order, a, hist ++ [mk_trade r.2.1])

/-- SimulatedExchange::submit_order; now_ms is the wall-clock read used both
for the order id and for submit_time.  Returns the order id and the new state. -/
def submit_order (ex : SimulatedExchange) (order0 : SimulatedOrder) (now_ms : ℤ) :
    String × SimulatedExchange :=
  let counter := ex.order_counter + 1
  let oid := generate_order_id now_ms order0.symbol counter
  let order := { order0 with order_id := oid, status := OrderStatus.PENDING,
                             filled_volume := 0, submit_time := now_ms }
  let ex := { ex with order_counter := counter }
  let store := fun (o : SimulatedOrder) (a : SimulationAccount) =>
    (oid, { ex with account := a, orders := ex.orders ++ [(oid, o)] })
  let rejected := { order with status := OrderStatus.REJECTED }
  if order.volume ≤ 0 then store rejected ex.account
  else if order.type = OrderType.LIMIT ∧ order.price ≤ 0 then store rejected ex.account
  else if order.side = OrderSide.BUY then
    let r := ex.account.freeze_cash (freeze_amount_of order)
    if r.1 = false then store rejected r.2
    else store order r.2
  else
    let current_date := Int.tdiv ex.current_time 86400000
    if ex.account.can_sell order.symbol order.volume current_date = false then
      store rejected ex.account
    else
      let r := ex.account.freeze_position order.symbol order.volume
      if r.1 = false then store rejected r.2
      else store order r.2

/-- The PENDING-order loop body of SimulatedExchange::on_tick: each order of
the registry whose status is PENDING and whose symbol matches the tick is fed
to the matcher; success commits through process_fill; a non-success whose
reason contains neither the substring limit nor the substring price is a hard
reject; any other non-success leaves the order untouched.  One oracle draw is
consumed per matched order. -/
def tick_pass (tick : Tick) (current_date now : ℤ) :
    List (String × SimulatedOrder) → SimulationAccount → List TradeRecord → List ℚ →
    List (String × SimulatedOrder) × SimulationAccount × List TradeRecord
  | [], a, hist, _ => ([], a, hist)
  | (oid, o) :: rest, a, hist, us =>
    if o.status = OrderStatus.PENDING ∧ o.symbol = tick.symbol then
      let r := OrderMatcher.try_match_order o tick true (us.headD 0)
      let step :=
        if r.success then process_fill a hist o r current_date now
        else if !(str_contains r.reject_reason "limit") && !(str_contains r.reject_reason "price") then
          let p := process_reject a o
          (p.1, p.2, hist)
        else (o, a, hist)
      let rec_result := tick_pass tick current_date now rest step.2.1 step.2.2 us.tail
      ((oid, step.1) :: rec_result.1, rec_result.2)
    else
      let rec_result := tick_pass tick current_date now rest a hist us
      ((oid, o) :: rec_result.1, rec_result.2)

/-- SimulatedExchange::on_tick: set current_time, refresh the position price
of the symbol, then run the matching loop over the registry. -/
def on_tick (ex : SimulatedExchange) (tick : Tick) (us : List ℚ) : SimulatedExchange :=
  let now := tick.timestamp
  let current_date := Int.tdiv now 86400000
  let a := ex.account.update_position_price tick.symbol tick.last_price
  let r := tick_pass tick current_date now ex.orders a ex.trade_history us
  { ex with current_time := now, orders := r.1, account := r.2.1, trade_history := r.2.2 }

/-- SimulatedExchange::on_tick paired with a LimitQueue value: the class owns
no LimitQueue and on_tick never calls one, so the queue component passes
through untouched.  The pair makes the absence of enqueueing statable. -/
def on_tick_with_queue (s : SimulatedExchange × LimitQueue) (tick : Tick) (us : List ℚ) :
    SimulatedExchange × LimitQueue :=
  (on_tick s.1 tick us, s.2)

/-- SimulatedExchange::cancel_order; now_ms is the wall-clock read stored into
cancel_time. -/
def cancel_order (ex : SimulatedExchange) (order_id : String) (now_ms : ℤ) :
    Bool × SimulatedExchange :=
  match alist_lookup ex.orders order_id with
  | none => (false, ex)
  | some o =>
    if o.status ≠ OrderStatus.PENDING then (false, ex)
    else
      let a :=
        if o.side = OrderSide.BUY then ex.account.unfreeze_cash (freeze_amount_of o)
        else ex.account.unfreeze_position o.symbol o.volume
      let o2 := { o with status := OrderStatus.CANCELLED, cancel_time := now_ms }
      (true, { ex with account := a, orders := alist_update order_id (fun _ => o2) ex.orders })

/-- SimulatedExchange::update_daily. -/
def update_daily (ex : SimulatedExchange) (current_date : ℤ) : SimulatedExchange :=
  { ex with account := ex.account.update_available_volume current_date }

end SimulatedExchange

/-- One public operation of the core: the four mutating exchange entry points,
and the public SimulationAccount (Ledger) operations called directly. -/
inductive CoreOp where
  | submitOrder (o : SimulatedOrder) (now : ℤ)
  | onTick (t : Tick) (us : List ℚ)
  | cancelOrder (oid : String) (now : ℤ)
  | updateDaily (d : ℤ)
  | freezeCash (amount : ℚ)
  | unfreezeCash (amount : ℚ)
  | addPosition (s : String) (v : ℤ) (p : ℚ) (d : ℤ)
  | reducePosition (s : String) (v : ℤ) (p : ℚ)
  | freezePosition (s : String) (v : ℤ)
  | unfreezePosition (s : String) (v : ℤ)
  | updatePositionPrice (s : String) (p : ℚ)
  | updateAvailableVolume (d : ℤ)
  | dailySettlement (d : ℤ)

/-- Apply one public operation to the exchange state. -/
def apply_core (ex : SimulatedExchange) : CoreOp → SimulatedExchange
  | CoreOp.submitOrder o now => (ex.submit_order o now).2
  | CoreOp.onTick t us => ex.on_tick t us
  | CoreOp.cancelOrder oid now => (ex.cancel_order oid now).2
  | CoreOp.updateDaily d => ex.update_daily d
  | CoreOp.freezeCash amount => { ex with account := (ex.account.freeze_cash amount).2 }
  | CoreOp.unfreezeCash amount => { ex with account := ex.account.unfreeze_cash amount }
  | CoreOp.addPosition s v p d => { ex with account := (ex.account.add_position s v p d).2 }
  | CoreOp.reducePosition s v p => { ex with account := (ex.account.reduce_position s v p).2.2 }
  | CoreOp.freezePosition s v => { ex with account := (ex.account.freeze_position s v).2 }
  | CoreOp.unfreezePosition s v => { ex with account := ex.account.unfreeze_position s v }
  | CoreOp.updatePositionPrice s p => { ex with account := ex.account.update_position_price s p }
  | CoreOp.updateAvailableVolume d => { ex with account := ex.account.update_available_volume d }
  | CoreOp.dailySettlement d => { ex with account := ex.account.daily_settlement d }

/-- Run a sequence of public operations. -/
def run_core (ex : SimulatedExchange) (ops : List CoreOp) : SimulatedExchange :=
  ops.foldl apply_core ex

/-- Marks the one operation that writes withdrawable_cash. -/
def CoreOp.is_daily_settlement : CoreOp → Bool
  | CoreOp.dailySettlement _ => true
  | _ => false

/-- Properties that every TradeRecord appended by the exchange satisfies: its
commission is exactly SimulatedExchange.calculate_commission of its own side,
price and volume; the commission is at least the 5 yuan floor; and a BUY
record has a lot-multiple volume. -/
def good_record (r : TradeRecord) : Prop :=
  r.commission = SimulatedExchange.calculate_commission r.side r.price r.volume ∧
  5 ≤ r.commission ∧
  (r.side = OrderSide.BUY → r.volume % 100 = 0)

/-- The lot-rule property of a registry entry: a FILLED BUY order has a
lot-multiple filled_volume. -/
def lot_ok_order (o : SimulatedOrder) : Prop :=
  o.status = OrderStatus.FILLED → o.side = OrderSide.BUY → o.filled_volume % 100 = 0

-- ===========================================================================
-- Concrete inputs used by the counterexamples, code-bug evaluations and
-- witnesses.
-- ===========================================================================

/-- A BUY LIMIT order template: 200 shares of 600000 at 10.00 yuan. -/
def demo_buy_order : SimulatedOrder :=
  { order_id := "", symbol := "600000", side := OrderSide.BUY, type := OrderType.LIMIT,
    price := 10, volume := 200, filled_volume := 0, status := OrderStatus.PENDING,
    submit_time := 0, cancel_time := 0, filled_time := 0,
    commission_rate := 25/100000, slippage_rate := 0 }

/-- A SELL LIMIT order: 150 shares (not a lot multiple) of 600000 at 10.00. -/
def demo_sell_order : SimulatedOrder :=
  { demo_buy_order with side := OrderSide.SELL, volume := 150 }

/-- Tick on day 1 for 600000: last 10.00, bid 9.99, ask 10.00, volume 100000,
prior close 10.00. -/
def demo_tick1 : Tick :=
  { symbol := "600000", timestamp := 86400000, last_price := 10, bid_price := 999/100,
    ask_price := 10, volume := 100000, last_close := 10 }

/-- Tick on day 2: bid 10.00, ask 10.01. -/
def demo_tick2 : Tick :=
  { demo_tick1 with timestamp := 172800000, bid_price := 10, ask_price := 1001/100 }

/-- A run of the public exchange API: buy 200 on day 1, then sell 150 of the
unlocked position on day 2. -/
def demo_ops : List CoreOp :=
  [CoreOp.submitOrder demo_buy_order 1000,
   CoreOp.onTick demo_tick1 [0],
   CoreOp.onTick demo_tick2 [],
   CoreOp.submitOrder demo_sell_order 2000,
   CoreOp.onTick demo_tick2 [0]]

/-- The exchange state reached by demo_ops from a fresh 100000 yuan account. -/
def demo_run : SimulatedExchange := run_core (SimulatedExchange.init "ACC" 100000) demo_ops

/-- The buy order as stored by submit_order in the demo run. -/
def demo_buy_stored : SimulatedOrder :=
  { demo_buy_order with order_id := "ORDER_1000_600000_1", submit_time := 1000 }

/-- The sell order as stored by submit_order in the demo run. -/
def demo_sell_stored : SimulatedOrder :=
  { demo_sell_order with order_id := "ORDER_2000_600000_2", submit_time := 2000 }

/-- Demo state after submitting the buy order. -/
def demo_ex1 : SimulatedExchange :=
  { account := { account_id := "ACC", initial_capital := 100000, available_cash := 97994,
                 withdrawable_cash := 100000, frozen_cash := 2006, today_sell_amount := 0,
                 realized_pnl := 0, positions := [] },
    orders := [("ORDER_1000_600000_1", demo_buy_stored)],
    trade_history := [], current_time := 0, order_counter := 1 }

/-- The position created by the buy fill. -/
def demo_pos2 : Position :=
  { symbol := "600000", volume := 200, available_volume := 0, frozen_volume := 0,
    avg_cost := 10, current_price := 10, market_value := 2000, unrealized_pnl := 0,
    buy_date := 1 }

/-- The trade record of the buy fill. -/
def demo_trade1 : TradeRecord :=
  { trade_id := "TRADE_86400000_1", order_id := "ORDER_1000_600000_1", symbol := "600000",
    side := OrderSide.BUY, price := 10, volume := 200, commission := 5,
    trade_time := 86400000, realized_pnl := 0 }

/-- The buy order after its fill. -/
def demo_buy_filled : SimulatedOrder :=
  { demo_buy_stored with filled_volume := 200, status := OrderStatus.FILLED,
                         filled_time := 86400000 }

/-- The sell order after its fill. -/
def demo_sell_filled : SimulatedOrder :=
  { demo_sell_stored with filled_volume := 150, status := OrderStatus.FILLED,
                          filled_time := 172800000 }

/-- Demo state after the buy fill on the day 1 tick.  Note available_cash is
back at 100000: the freeze_cash/unfreeze_cash pair of process_fill nets to
zero, so the buy debits nothing. -/
def demo_ex2 : SimulatedExchange :=
  { account := { account_id := "ACC", initial_capital := 100000, available_cash := 100000,
                 withdrawable_cash := 100000, frozen_cash := 0, today_sell_amount := 0,
                 realized_pnl := 0, positions := [("600000", demo_pos2)] },
    orders := [("ORDER_1000_600000_1", demo_buy_filled)],
    trade_history := [demo_trade1], current_time := 86400000, order_counter := 1 }

/-- Demo state after the (fill-free) day 2 tick: only current_time moves. -/
def demo_ex3 : SimulatedExchange := { demo_ex2 with current_time := 172800000 }

/-- Demo state after submitting the sell order: 150 shares frozen. -/
def demo_ex4 : SimulatedExchange :=
  { demo_ex3 with
    account := { demo_ex3.account with
      positions := [("600000", { demo_pos2 with frozen_volume := 150 })] },
    orders := demo_ex3.orders ++ [("ORDER_2000_600000_2", demo_sell_stored)],
    order_counter := 2 }

/-- The trade record of the sell fill: commission 6.50 = 5.00 floor + 1.50
stamp duty (no transfer fee: the exchange ignores calculate_total_commission). -/
def demo_trade2 : TradeRecord :=
  { trade_id := "TRADE_172800000_2", order_id := "ORDER_2000_600000_2", symbol := "600000",
    side := OrderSide.SELL, price := 10, volume := 150, commission := 13/2,
    trade_time := 172800000, realized_pnl := 0 }

/-- Demo state after the sell fill. -/
def demo_ex5 : SimulatedExchange :=
  { account := { account_id := "ACC", initial_capital := 100000, available_cash := 101500,
                 withdrawable_cash := 100000, frozen_cash := 0, today_sell_amount := 1500,
                 realized_pnl := 0,
                 positions := [("600000",
                   { demo_pos2 with volume := 50, market_value := 500 })] },
    orders := [("ORDER_1000_600000_1", demo_buy_filled),
      ("ORDER_2000_600000_2", demo_sell_filled)],
    trade_history := [demo_trade1, demo_trade2],
    current_time := 172800000, order_counter := 2 }

/-- Ledger-level run for the position-invariant counterexample: buy 100,
settle, freeze 50 for a sell order, reduce 60, settle again. -/
def ops_c4 : List CoreOp :=
  [CoreOp.addPosition "600000" 100 10 1,
   CoreOp.dailySettlement 2,
   CoreOp.freezePosition "600000" 50,
   CoreOp.reducePosition "600000" 60 10,
   CoreOp.dailySettlement 3]

/-- Ledger-level run showing freeze_position alone already violates
available_volume <= volume - frozen_volume: buy 100, settle, freeze 100. -/
def ops_c4a : List CoreOp :=
  [CoreOp.addPosition "600000" 100 10 1,
   CoreOp.dailySettlement 2,
   CoreOp.freezePosition "600000" 100]

/-- The account just before the BUY fill of the C1 evaluation: 100000
available, 1003 frozen by the pessimistic estimate of the pending order. -/
def c1_account : SimulationAccount :=
  { account_id := "ACC", initial_capital := 101003, available_cash := 100000,
    withdrawable_cash := 101003, frozen_cash := 1003, today_sell_amount := 0,
    realized_pnl := 0, positions := [] }

/-- The BUY LIMIT order of the C1 evaluation: 100 shares at 10.00. -/
def c1_order : SimulatedOrder :=
  { demo_buy_order with order_id := "B1", volume := 100 }

/-- Its match: filled at 10.00 for 100 shares; commission is 5.00, so the
actual cost is 1005.00. -/
def c1_match : MatchResult := MatchResult.filled 10 100

/-- The account before the BUY fill of the C3 counterexample: the pessimistic
estimate 100000 * 10 * 1.003 = 1003000 is frozen. -/
def c3_account : SimulationAccount :=
  { account_id := "ACC", initial_capital := 1003000, available_cash := 0,
    withdrawable_cash := 1003000, frozen_cash := 1003000, today_sell_amount := 0,
    realized_pnl := 0, positions := [] }

/-- BUY LIMIT 100000 shares of Shanghai symbol 600000 at 10.00, with the
default commission rate carried on the order. -/
def c3_order : SimulatedOrder :=
  { demo_buy_order with order_id := "B3", volume := 100000 }

/-- Its match: filled at 10.00 for 100000 shares. -/
def c3_match : MatchResult := MatchResult.filled 10 100000

/-- A parked-at-limit-up scenario: BUY LIMIT at 11.50 when the limit-up price
is 11.00. -/
def c2_order : SimulatedOrder :=
  { demo_buy_order with order_id := "O1", price := 23/2, volume := 100 }

/-- Exchange holding the single PENDING order of the C2 scenario. -/
def c2_ex : SimulatedExchange :=
  { account := SimulationAccount.init "ACC" 100000,
    orders := [("O1", c2_order)],
    trade_history := [], current_time := 0, order_counter := 1 }

/-- Tick at the daily upper limit: last 11.00 on prior close 10.00, ask 11.50. -/
def c2_tick : Tick :=
  { symbol := "600000", timestamp := 86400000, last_price := 11, bid_price := 11,
    ask_price := 23/2, volume := 100000, last_close := 10 }

/-- An account with one T+1-unlocked position, for the settlement witness. -/
def c6_account : SimulationAccount :=
  { account_id := "ACC", initial_capital := 1000, available_cash := 700,
    withdrawable_cash := 300, frozen_cash := 300, today_sell_amount := 42,
    realized_pnl := 0,
    positions := [("600000",
      { symbol := "600000", volume := 100, available_volume := 0, frozen_volume := 30,
        avg_cost := 10, current_price := 10, market_value := 1000, unrealized_pnl := 0,
        buy_date := 1 })] }

/-- Two queued orders for the limit-queue witness. -/
def c7_o1 : SimulatedOrder := { demo_buy_order with order_id := "Q1", price := 11 }

/-- Second queued order. -/
def c7_o2 : SimulatedOrder := { demo_buy_order with order_id := "Q2", price := 11 }

/-- A LimitQueue with two orders parked in the limit-up queue of 600000. -/
def c7_queue : LimitQueue :=
  { limit_up_queues := [("600000", [c7_o1, c7_o2])], limit_down_queues := [] }

/-- Tick still at the upper limit: last 11.00 on prior close 10.00. -/
def c7_tick : Tick :=
  { symbol := "600000", timestamp := 0, last_price := 11, bid_price := 11,
    ask_price := 11, volume := 0, last_close := 10 }

/-- The one bound on positions that every public operation preserves:
frozen_volume never becomes negative. -/
def pos_frozen_ok (a : SimulationAccount) : Prop :=
  ∀ e ∈ a.positions, 0 ≤ e.2.frozen_volume

/-- The registry/history invariant of the exchange: every FILLED BUY order has
a lot-multiple filled_volume and every trade record is good_record. -/
def exchange_good (ex : SimulatedExchange) : Prop :=
  (∀ e ∈ ex.orders, lot_ok_order e.2) ∧ (∀ r ∈ ex.trade_history, good_record r)

-- ===========================================================================
-- Helper lemmas: rounding, association lists, string search.
-- ===========================================================================

theorem round_to_cent_ge_5 {x : ℚ} (h : 5 ≤ x) : 5 ≤ round_to_cent x := by
  have h0 : (0 : ℚ) ≤ x * 100 := by nlinarith
  have hfl : (500 : ℤ) ≤ ⌊x * 100 + 1/2⌋ := by
    rw [Int.le_floor]
    push_cast
    nlinarith
  unfold round_to_cent cppRound
  rw [if_pos h0]
  rw [le_div_iff₀ (by norm_num : (0:ℚ) < 100)]
  calc (5 : ℚ) * 100 = ((500 : ℤ) : ℚ) := by norm_num
  _ ≤ ((⌊x * 100 + 1/2⌋ : ℤ) : ℚ) := by exact_mod_cast hfl

theorem mem_alist_erase {α : Type} {key : String} {l : List (String × α)}
    {e : String × α} (he : e ∈ alist_erase key l) : e ∈ l := by
  induction l with
  | nil => simp [alist_erase] at he
  | cons hd tl ih =>
    by_cases hk : hd.1 = key
    · simp only [alist_erase] at he
      rw [if_pos (by cases hd; simpa using hk)] at he
      · exact List.mem_cons_of_mem _ he
    · simp only [alist_erase] at he
      rw [if_neg (by cases hd; simpa using hk)] at he
      rcases List.mem_cons.mp he with h | h
      · exact h ▸ List.mem_cons_self _ _
      · exact List.mem_cons_of_mem _ (ih h)

theorem alist_update_pres {α : Type} (P : α → Prop) (key : String) (f : α → α)
    {l : List (String × α)} (hl : ∀ e ∈ l, P e.2) (hf : ∀ v, P v → P (f v)) :
    ∀ e ∈ alist_update key f l, P e.2 := by
  induction l with
  | nil => intro e he; simp [alist_update] at he
  | cons hd tl ih =>
    intro e he
    simp only [alist_update] at he
    by_cases hk : hd.1 = key
    · rw [if_pos (by cases hd; simpa using hk)] at he
      rcases List.mem_cons.mp he with h | h
      · subst h; exact hf _ (hl hd (List.mem_cons_self _ _))
      · exact hl e (List.mem_cons_of_mem _ h)
    · rw [if_neg (by cases hd; simpa using hk)] at he
      rcases List.mem_cons.mp he with h | h
      · subst h; exact hl hd (List.mem_cons_self _ _)
      · exact ih (fun e' he' => hl e' (List.mem_cons_of_mem _ he')) e h

theorem alist_lookup_update_self {α : Type} (key : String) (f : α → α)
    (l : List (String × α)) :
    alist_lookup (alist_update key f l) key = (alist_lookup l key).map f := by
  induction l with
  | nil => simp [alist_update, alist_lookup]
  | cons hd tl ih =>
    by_cases hk : hd.1 = key
    · cases hd with
      | mk k v =>
        simp only [alist_update, alist_lookup]
        simp only at hk
        rw [if_pos hk, alist_lookup, if_pos hk, if_pos hk]
        rfl
    · cases hd with
      | mk k v =>
        simp only at hk
        simp only [alist_update, alist_lookup]
        rw [if_neg hk, alist_lookup, if_neg hk, if_neg hk]
        exact ih

theorem alist_lookup_erase_nodup {α : Type} {key : String} {l : List (String × α)}
    (hn : (l.map Prod.fst).Nodup) :
    alist_lookup (alist_erase key l) key = none := by
  induction l with
  | nil => simp [alist_erase, alist_lookup]
  | cons hd tl ih =>
    cases hd with
    | mk k v =>
      simp only [List.map_cons, List.nodup_cons] at hn
      by_cases hk : k = key
      · simp only [alist_erase]
        rw [if_pos hk]
        subst hk
        clear ih
        induction tl with
        | nil => simp [alist_lookup]
        | cons hd2 tl2 ih2 =>
          cases hd2 with
          | mk k2 v2 =>
            simp only [List.map_cons, List.mem_cons, List.nodup_cons] at hn
            have hk2 : k2 ≠ k := fun h => hn.1 (Or.inl h.symm)
            simp only [alist_lookup]
            rw [if_neg hk2]
            exact ih2 ⟨fun h => hn.1 (Or.inr h), hn.2.2⟩
      · simp only [alist_erase]
        rw [if_neg hk, alist_lookup, if_neg hk]
        exact ih hn.2

theorem str_contains_of_prefix_at {s pat : String} (i : Nat)
    (hi : i < s.data.length + 1)
    (h : pat.data.isPrefixOf (s.data.drop i) = true) : str_contains s pat = true := by
  unfold str_contains
  rw [List.any_eq_true]
  exact ⟨i, List.mem_range.mpr hi, h⟩

theorem starts_price_at_limit_contains_limit {r : String}
    (h : "Price at limit".data.isPrefixOf r.data = true) :
    str_contains r "limit" = true := by
  rw [List.isPrefixOf_iff_prefix] at h
  rcases h with ⟨t, ht⟩
  apply str_contains_of_prefix_at 9
  · have : r.data.length = 14 + t.length := by
      rw [← ht, List.length_append]; rfl
    omega
  · rw [List.isPrefixOf_iff_prefix, ← ht]
    have hd : ("Price at limit".data ++ t).drop 9 = "limit".data ++ t := by
      rw [List.drop_append_eq_append_drop]
      rfl
    rw [hd]
    exact List.prefix_append _ _

-- ===========================================================================
-- Frame lemmas of the SimulationAccount operations.
-- ===========================================================================

namespace SimulationAccount

theorem freeze_cash_positions (a : SimulationAccount) (x : ℚ) :
    ((a.freeze_cash x).2).positions = a.positions := by
  unfold freeze_cash
  dsimp only
  repeat' split
  all_goals rfl

theorem freeze_cash_withdrawable (a : SimulationAccount) (x : ℚ) :
    ((a.freeze_cash x).2).withdrawable_cash = a.withdrawable_cash := by
  unfold freeze_cash
  dsimp only
  repeat' split
  all_goals rfl

theorem unfreeze_cash_positions (a : SimulationAccount) (x : ℚ) :
    (a.unfreeze_cash x).positions = a.positions := by
  unfold unfreeze_cash
  dsimp only
  repeat' split
  all_goals rfl

theorem unfreeze_cash_withdrawable (a : SimulationAccount) (x : ℚ) :
    (a.unfreeze_cash x).withdrawable_cash = a.withdrawable_cash := by
  unfold unfreeze_cash
  dsimp only
  repeat' split
  all_goals rfl

theorem add_position_withdrawable (a : SimulationAccount) (s : String) (v : ℤ) (p : ℚ) (d : ℤ) :
    ((a.add_position s v p d).2).withdrawable_cash = a.withdrawable_cash := by
  unfold add_position
  dsimp only
  repeat' split
  all_goals rfl

theorem reduce_position_withdrawable (a : SimulationAccount) (s : String) (v : ℤ) (p : ℚ) :
    ((a.reduce_position s v p).2.2).withdrawable_cash = a.withdrawable_cash := by
  unfold reduce_position
  dsimp only
  repeat' split
  all_goals rfl

theorem update_position_price_withdrawable (a : SimulationAccount) (s : String) (p : ℚ) :
    (a.update_position_price s p).withdrawable_cash = a.withdrawable_cash := by
  unfold update_position_price
  dsimp only
  repeat' split
  all_goals rfl

theorem update_available_volume_withdrawable (a : SimulationAccount) (d : ℤ) :
    (a.update_available_volume d).withdrawable_cash = a.withdrawable_cash := rfl

theorem freeze_position_withdrawable (a : SimulationAccount) (s : String) (v : ℤ) :
    ((a.freeze_position s v).2).withdrawable_cash = a.withdrawable_cash := by
  unfold freeze_position
  dsimp only
  repeat' split
  all_goals rfl

theorem unfreeze_position_withdrawable (a : SimulationAccount) (s : String) (v : ℤ) :
    (a.unfreeze_position s v).withdrawable_cash = a.withdrawable_cash := by
  unfold unfreeze_position
  dsimp only
  repeat' split
  all_goals rfl

theorem daily_settlement_frozen (a : SimulationAccount) (d : ℤ) :
    (a.daily_settlement d).frozen_cash = a.frozen_cash := rfl

end SimulationAccount

-- ===========================================================================
-- Preservation of the frozen-volume bound by each Ledger operation.
-- ===========================================================================

theorem alist_lookup_mem {α : Type} {l : List (String × α)} {k : String} {v : α}
    (h : alist_lookup l k = some v) : (k, v) ∈ l := by
  induction l with
  | nil => simp [alist_lookup] at h
  | cons hd tl ih =>
    cases hd with
    | mk k2 v2 =>
      simp only [alist_lookup] at h
      by_cases hk : k2 = k
      · rw [if_pos hk] at h
        subst hk
        cases h
        exact List.mem_cons_self _ _
      · rw [if_neg hk] at h
        exact List.mem_cons_of_mem _ (ih h)

namespace SimulationAccount

theorem pos_frozen_ok_freeze_cash {a : SimulationAccount} (x : ℚ)
    (h : pos_frozen_ok a) : pos_frozen_ok (a.freeze_cash x).2 := by
  unfold pos_frozen_ok at *
  rw [freeze_cash_positions]
  exact h

theorem pos_frozen_ok_unfreeze_cash {a : SimulationAccount} (x : ℚ)
    (h : pos_frozen_ok a) : pos_frozen_ok (a.unfreeze_cash x) := by
  unfold pos_frozen_ok at *
  rw [unfreeze_cash_positions]
  exact h

theorem pos_frozen_ok_add_position {a : SimulationAccount} (s : String) (v : ℤ) (p : ℚ) (d : ℤ)
    (h : pos_frozen_ok a) : pos_frozen_ok (a.add_position s v p d).2 := by
  unfold pos_frozen_ok at *
  unfold add_position
  dsimp only
  repeat' split
  any_goals exact h
  · intro e he
    rcases List.mem_append.mp he with h1 | h1
    · exact h e h1
    · simp only [List.mem_singleton] at h1
      subst h1
      simp [Position.create]
  · next pos heq =>
    have hp : 0 ≤ pos.frozen_volume := h _ (alist_lookup_mem heq)
    intro e he
    exact alist_update_pres (fun q => 0 ≤ q.frozen_volume) _ _ h (fun w hw => hp) e he

theorem pos_frozen_ok_reduce_position {a : SimulationAccount} (s : String) (v : ℤ) (p : ℚ)
    (h : pos_frozen_ok a) : pos_frozen_ok (a.reduce_position s v p).2.2 := by
  unfold pos_frozen_ok at *
  unfold reduce_position
  dsimp only
  repeat' split
  any_goals exact h
  · intro e he
    exact h e (mem_alist_erase he)
  · next pos heq hlt hne =>
    have hp : 0 ≤ pos.frozen_volume := h _ (alist_lookup_mem heq)
    intro e he
    exact alist_update_pres (fun q => 0 ≤ q.frozen_volume) _ _ h (fun w hw => hp) e he

theorem pos_frozen_ok_update_position_price {a : SimulationAccount} (s : String) (p : ℚ)
    (h : pos_frozen_ok a) : pos_frozen_ok (a.update_position_price s p) := by
  unfold pos_frozen_ok at *
  unfold update_position_price
  dsimp only
  repeat' split
  any_goals exact h
  intro e he
  refine alist_update_pres (fun pos => 0 ≤ pos.frozen_volume) _ _ h ?_ e he
  intro w hw
  exact hw

theorem pos_frozen_ok_unlock_map {a : SimulationAccount} (d : ℤ)
    (h : pos_frozen_ok a) :
    ∀ e ∈ a.positions.map (fun e => (e.1, unlock_pos d e.2)), 0 ≤ e.2.frozen_volume := by
  intro e he
  rcases List.mem_map.mp he with ⟨e0, he0, rfl⟩
  have := h e0 he0
  unfold unlock_pos
  split <;> exact this

theorem pos_frozen_ok_update_available_volume {a : SimulationAccount} (d : ℤ)
    (h : pos_frozen_ok a) : pos_frozen_ok (a.update_available_volume d) :=
  pos_frozen_ok_unlock_map d h

theorem pos_frozen_ok_daily_settlement {a : SimulationAccount} (d : ℤ)
    (h : pos_frozen_ok a) : pos_frozen_ok (a.daily_settlement d) :=
  pos_frozen_ok_unlock_map d h

theorem pos_frozen_ok_freeze_position {a : SimulationAccount} (s : String) (v : ℤ)
    (h : pos_frozen_ok a) : pos_frozen_ok (a.freeze_position s v).2 := by
  unfold pos_frozen_ok at *
  unfold freeze_position
  dsimp only
  repeat' split
  any_goals exact h
  next hv _ _ _ =>
    intro e he
    refine alist_update_pres (fun pos => 0 ≤ pos.frozen_volume) _ _ h ?_ e he
    intro w hw
    have : 0 < v := by omega
    simp only
    omega

theorem pos_frozen_ok_unfreeze_position {a : SimulationAccount} (s : String) (v : ℤ)
    (h : pos_frozen_ok a) : pos_frozen_ok (a.unfreeze_position s v) := by
  unfold pos_frozen_ok at *
  unfold unfreeze_position
  dsimp only
  repeat' split
  any_goals exact h
  intro e he
  refine alist_update_pres (fun pos => 0 ≤ pos.frozen_volume) _ _ h ?_ e he
  intro w hw
  simp only
  omega

end SimulationAccount

-- ===========================================================================
-- Matcher lemmas: the shape of try_match_order results.
-- ===========================================================================

namespace OrderMatcher

theorem validate_ok_buy_lot {v : ℤ} {side : OrderSide} {av : ℤ}
    (h : (validate_order_volume v side av).1 = true) (hs : side = OrderSide.BUY) :
    v % 100 = 0 := by
  unfold validate_order_volume at h
  split_ifs at h with h1 h2 h3 h4
  by_contra hmod
  exact h3 ⟨hs, hmod⟩

theorem try_match_cases (o : SimulatedOrder) (t : Tick) (c : Bool) (u : ℚ) :
    (∃ reason, try_match_order o t c u = MatchResult.rejected reason) ∨
    (∃ p, try_match_order o t c u = MatchResult.filled p o.volume ∧
          (validate_order_volume o.volume o.side 0).1 = true) := by
  unfold try_match_order
  dsimp only
  split
  · exact Or.inl ⟨_, rfl⟩
  · next hv =>
    have hok : (validate_order_volume o.volume o.side 0).1 = true := by
      revert hv
      cases (validate_order_volume o.volume o.side 0).1 <;> simp
    split
    · exact Or.inl ⟨_, rfl⟩
    · split
      · split
        · exact Or.inl ⟨_, rfl⟩
        · exact Or.inl ⟨_, rfl⟩
      · split
        · exact Or.inl ⟨_, rfl⟩
        · exact Or.inr ⟨_, rfl, hok⟩

theorem try_match_success {o : SimulatedOrder} {t : Tick} {c : Bool} {u : ℚ}
    (h : (try_match_order o t c u).success = true) :
    (try_match_order o t c u).filled_volume = o.volume ∧
    (o.side = OrderSide.BUY → o.volume % 100 = 0) := by
  rcases try_match_cases o t c u with ⟨reason, hr⟩ | ⟨p, hr, hok⟩
  · rw [hr] at h
    simp [MatchResult.rejected] at h
  · rw [hr]
    exact ⟨rfl, fun hb => validate_ok_buy_lot hok hb⟩

end OrderMatcher

-- ===========================================================================
-- Shape lemmas for process_reject and process_fill.
-- ===========================================================================

theorem reduce_position_pos {a : SimulationAccount} {s : String} {v : ℤ} {p : ℚ}
    (h : (a.reduce_position s v p).1 = true) : 0 < v ∧ 0 < p := by
  unfold SimulationAccount.reduce_position at h
  dsimp only at h
  split at h
  · simp at h
  · next hnot =>
    push_neg at hnot
    exact ⟨by omega, hnot.2⟩

theorem process_reject_fst (a : SimulationAccount) (o : SimulatedOrder) :
    (SimulatedExchange.process_reject a o).1 = { o with status := OrderStatus.REJECTED } := rfl

theorem process_fill_cases (a : SimulationAccount) (hist : List TradeRecord)
    (o : SimulatedOrder) (m : MatchResult) (cd now : ℤ) :
    (∃ a2, SimulatedExchange.process_fill a hist o m cd now =
      ({ o with status := OrderStatus.REJECTED }, a2, hist)) ∨
    (∃ a2 realized,
      SimulatedExchange.process_fill a hist o m cd now =
        ({ o with status := OrderStatus.FILLED, filled_volume := m.filled_volume,
                  filled_time := now }, a2,
         hist ++ [{ trade_id := "TRADE_" ++ toString now ++ "_" ++ toString (hist.length + 1),
                    order_id := o.order_id, symbol := o.symbol, side := o.side,
                    price := m.filled_price, volume := m.filled_volume,
                    commission := SimulatedExchange.calculate_commission o.side m.filled_price
                      m.filled_volume,
                    trade_time := now, realized_pnl := realized }]) ∧
      (o.side = OrderSide.SELL → 0 < m.filled_volume ∧ 0 < m.filled_price)) := by
  unfold SimulatedExchange.process_fill
  dsimp only
  split
  · next hside =>
    split
    · exact Or.inl ⟨_, rfl⟩
    · refine Or.inr ⟨_, 0, rfl, fun hsell => ?_⟩
      rw [hside] at hsell
      cases hsell
  · split
    · exact Or.inl ⟨_, rfl⟩
    · next hr =>
      have hr2 : (a.reduce_position o.symbol m.filled_volume m.filled_price).1 = true := by
        revert hr
        cases (a.reduce_position o.symbol m.filled_volume m.filled_price).1 <;> simp
      refine Or.inr ⟨_, _, rfl, fun _ => reduce_position_pos hr2⟩

-- ===========================================================================
-- The commission bound and the record/order invariants through a tick.
-- ===========================================================================

theorem calculate_commission_ge_5 (side : OrderSide) (p : ℚ) (v : ℤ)
    (hsell : side = OrderSide.SELL → 0 < v ∧ 0 < p) :
    5 ≤ SimulatedExchange.calculate_commission side p v := by
  unfold SimulatedExchange.calculate_commission
  dsimp only
  apply round_to_cent_ge_5
  cases side with
  | BUY =>
    simp only [reduceCtorEq, if_false]
    exact le_max_right _ 5
  | SELL =>
    obtain ⟨hv, hp⟩ := hsell rfl
    have hv2 : (0 : ℚ) < (v : ℚ) := by exact_mod_cast hv
    have ht : 0 < p * (v : ℚ) := mul_pos hp hv2
    have h5 : 5 ≤ max (p * (v : ℚ) * (25/100000)) 5 := le_max_right _ _
    simp only [eq_self_iff_true, if_true]
    nlinarith

theorem process_fill_good {a : SimulationAccount} {hist : List TradeRecord}
    {o : SimulatedOrder} {m : MatchResult} {cd now : ℤ}
    (hh : ∀ r ∈ hist, good_record r)
    (hlot : o.side = OrderSide.BUY → m.filled_volume % 100 = 0) :
    ∀ r ∈ (SimulatedExchange.process_fill a hist o m cd now).2.2, good_record r := by
  rcases process_fill_cases a hist o m cd now with ⟨a2, heq⟩ | ⟨a2, realized, heq, hsellpos⟩
  · rw [heq]; exact hh
  · rw [heq]
    intro r hr
    rcases List.mem_append.mp hr with h1 | h1
    · exact hh r h1
    · simp only [List.mem_singleton] at h1
      subst h1
      exact ⟨rfl, calculate_commission_ge_5 _ _ _ hsellpos, fun hb => hlot hb⟩

theorem process_fill_lot {a : SimulationAccount} {hist : List TradeRecord}
    {o : SimulatedOrder} {m : MatchResult} {cd now : ℤ}
    (hlot : o.side = OrderSide.BUY → m.filled_volume % 100 = 0) :
    lot_ok_order (SimulatedExchange.process_fill a hist o m cd now).1 := by
  rcases process_fill_cases a hist o m cd now with ⟨a2, heq⟩ | ⟨a2, realized, heq, _⟩ <;> rw [heq]
  · intro hf
    simp [lot_ok_order] at hf
  · intro _ hb
    exact hlot hb

theorem tick_pass_good (t : Tick) (cd now : ℤ) :
    ∀ (l : List (String × SimulatedOrder)) (a : SimulationAccount)
      (hist : List TradeRecord) (us : List ℚ),
      (∀ e ∈ l, lot_ok_order e.2) → (∀ r ∈ hist, good_record r) →
      (∀ e ∈ (SimulatedExchange.tick_pass t cd now l a hist us).1, lot_ok_order e.2) ∧
      (∀ r ∈ (SimulatedExchange.tick_pass t cd now l a hist us).2.2, good_record r) := by
  intro l
  induction l with
  | nil =>
    intro a hist us hl hh
    exact ⟨by simp [SimulatedExchange.tick_pass], by simpa [SimulatedExchange.tick_pass] using hh⟩
  | cons hd tl ih =>
    intro a hist us hl hh
    obtain ⟨oid, o⟩ := hd
    have hlo : lot_ok_order o := hl (oid, o) (List.mem_cons_self _ _)
    have hltl : ∀ e ∈ tl, lot_ok_order e.2 :=
      fun e he => hl e (List.mem_cons_of_mem _ he)
    unfold SimulatedExchange.tick_pass
    dsimp only
    split
    · -- matched: the order is PENDING for this symbol
      set r := OrderMatcher.try_match_order o t true (us.headD 0) with hrdef
      set step := (if r.success = true then
          SimulatedExchange.process_fill a hist o r cd now
        else if (!(str_contains r.reject_reason "limit") &&
                 !(str_contains r.reject_reason "price")) = true then
          ((SimulatedExchange.process_reject a o).1, (SimulatedExchange.process_reject a o).2, hist)
        else (o, a, hist)) with hstepdef
      have hstep : lot_ok_order step.1 ∧ ∀ rec ∈ step.2.2, good_record rec := by
        rw [hstepdef]
        by_cases hs : r.success = true
        · rw [if_pos hs]
          have hsm := OrderMatcher.try_match_success (hrdef ▸ hs)
          rw [← hrdef] at hsm
          have hlot2 : o.side = OrderSide.BUY → r.filled_volume % 100 = 0 := by
            intro hb
            rw [hsm.1]
            exact hsm.2 hb
          exact ⟨process_fill_lot hlot2, process_fill_good hh hlot2⟩
        · rw [if_neg hs]
          split
          · rw [process_reject_fst]
            refine ⟨?_, hh⟩
            intro hf
            simp [lot_ok_order] at hf
          · exact ⟨hlo, hh⟩
      obtain ⟨hs1, hs2⟩ := hstep
      have := ih step.2.1 step.2.2 us.tail hltl hs2
      refine ⟨?_, this.2⟩
      intro e he
      rcases List.mem_cons.mp he with h1 | h1
      · rw [h1]
        exact hs1
      · exact this.1 e h1
    · have := ih a hist us hltl hh
      refine ⟨?_, this.2⟩
      intro e he
      rcases List.mem_cons.mp he with h1 | h1
      · rw [h1]
        exact hlo
      · exact this.1 e h1

-- ===========================================================================
-- Lifting the invariants through the exchange entry points.
-- ===========================================================================

namespace SimulatedExchange

theorem process_reject_withdrawable (a : SimulationAccount) (o : SimulatedOrder) :
    ((process_reject a o).2).withdrawable_cash = a.withdrawable_cash := by
  unfold process_reject
  dsimp only
  split
  · exact SimulationAccount.unfreeze_cash_withdrawable a _
  · exact SimulationAccount.unfreeze_position_withdrawable a _ _

theorem process_reject_frozen_ok {a : SimulationAccount} (o : SimulatedOrder)
    (h : pos_frozen_ok a) : pos_frozen_ok (process_reject a o).2 := by
  unfold process_reject
  dsimp only
  split
  · exact SimulationAccount.pos_frozen_ok_unfreeze_cash _ h
  · exact SimulationAccount.pos_frozen_ok_unfreeze_position _ _ h

theorem process_fill_withdrawable (a : SimulationAccount) (hist : List TradeRecord)
    (o : SimulatedOrder) (m : MatchResult) (cd now : ℤ) :
    ((process_fill a hist o m cd now).2.1).withdrawable_cash = a.withdrawable_cash := by
  unfold process_fill
  dsimp only
  repeat' split
  all_goals
    simp [process_reject_withdrawable, SimulationAccount.freeze_cash_withdrawable,
      SimulationAccount.unfreeze_cash_withdrawable, SimulationAccount.add_position_withdrawable,
      SimulationAccount.reduce_position_withdrawable,
      SimulationAccount.unfreeze_position_withdrawable]

theorem process_fill_frozen_ok {a : SimulationAccount} (hist : List TradeRecord)
    (o : SimulatedOrder) (m : MatchResult) (cd now : ℤ)
    (h : pos_frozen_ok a) : pos_frozen_ok (process_fill a hist o m cd now).2.1 := by
  unfold process_fill
  dsimp only
  repeat' split
  · exact process_reject_frozen_ok _
      (SimulationAccount.pos_frozen_ok_freeze_cash _
        (SimulationAccount.pos_frozen_ok_unfreeze_cash _ h))
  · exact SimulationAccount.pos_frozen_ok_add_position _ _ _ _
      (SimulationAccount.pos_frozen_ok_unfreeze_cash _
        (SimulationAccount.pos_frozen_ok_freeze_cash _
          (SimulationAccount.pos_frozen_ok_unfreeze_cash _ h)))
  · exact process_reject_frozen_ok _
      (SimulationAccount.pos_frozen_ok_reduce_position _ _ _ h)
  · exact SimulationAccount.pos_frozen_ok_unfreeze_position _ _
      (SimulationAccount.pos_frozen_ok_unfreeze_cash _
        (SimulationAccount.pos_frozen_ok_freeze_cash _
          (SimulationAccount.pos_frozen_ok_reduce_position _ _ _ h)))

theorem tick_pass_withdrawable (t : Tick) (cd now : ℤ) :
    ∀ (l : List (String × SimulatedOrder)) (a : SimulationAccount)
      (hist : List TradeRecord) (us : List ℚ),
      ((tick_pass t cd now l a hist us).2.1).withdrawable_cash = a.withdrawable_cash := by
  intro l
  induction l with
  | nil => intro a hist us; rfl
  | cons hd tl ih =>
    intro a hist us
    obtain ⟨oid, o⟩ := hd
    unfold tick_pass
    dsimp only
    split
    · rw [ih]
      split
      · exact process_fill_withdrawable a hist o _ cd now
      · split
        · exact process_reject_withdrawable a o
        · rfl
    · exact ih a hist us

theorem tick_pass_frozen_ok (t : Tick) (cd now : ℤ) :
    ∀ (l : List (String × SimulatedOrder)) (a : SimulationAccount)
      (hist : List TradeRecord) (us : List ℚ),
      pos_frozen_ok a → pos_frozen_ok (tick_pass t cd now l a hist us).2.1 := by
  intro l
  induction l with
  | nil => intro a hist us h; exact h
  | cons hd tl ih =>
    intro a hist us h
    obtain ⟨oid, o⟩ := hd
    unfold tick_pass
    dsimp only
    split
    · apply ih
      split
      · exact process_fill_frozen_ok hist o _ cd now h
      · split
        · exact process_reject_frozen_ok o h
        · exact h
    · exact ih a hist us h

theorem on_tick_withdrawable (ex : SimulatedExchange) (t : Tick) (us : List ℚ) :
    ((ex.on_tick t us)).account.withdrawable_cash = ex.account.withdrawable_cash := by
  unfold on_tick
  dsimp only
  rw [tick_pass_withdrawable]
  exact SimulationAccount.update_position_price_withdrawable ex.account _ _

theorem on_tick_frozen_ok {ex : SimulatedExchange} (t : Tick) (us : List ℚ)
    (h : pos_frozen_ok ex.account) : pos_frozen_ok (ex.on_tick t us).account := by
  unfold on_tick
  dsimp only
  exact tick_pass_frozen_ok t _ _ _ _ _ _
    (SimulationAccount.pos_frozen_ok_update_position_price _ _ h)

theorem on_tick_good {ex : SimulatedExchange} (t : Tick) (us : List ℚ)
    (h : exchange_good ex) : exchange_good (ex.on_tick t us) := by
  obtain ⟨h1, h2⟩ := h
  unfold on_tick
  dsimp only
  exact tick_pass_good t _ _ ex.orders _ ex.trade_history us h1 h2

theorem submit_order_trade_history (ex : SimulatedExchange) (o : SimulatedOrder) (now : ℤ) :
    ((ex.submit_order o now).2).trade_history = ex.trade_history := by
  unfold submit_order
  dsimp only
  repeat' split
  all_goals rfl

theorem submit_order_withdrawable (ex : SimulatedExchange) (o : SimulatedOrder) (now : ℤ) :
    ((ex.submit_order o now).2).account.withdrawable_cash = ex.account.withdrawable_cash := by
  unfold submit_order
  dsimp only
  repeat' split
  all_goals
    simp [SimulationAccount.freeze_cash_withdrawable,
      SimulationAccount.freeze_position_withdrawable]

theorem submit_order_frozen_ok {ex : SimulatedExchange} (o : SimulatedOrder) (now : ℤ)
    (h : pos_frozen_ok ex.account) : pos_frozen_ok ((ex.submit_order o now).2).account := by
  unfold submit_order
  dsimp only
  repeat' split
  all_goals
    first
    | exact h
    | exact SimulationAccount.pos_frozen_ok_freeze_cash _ h
    | exact SimulationAccount.pos_frozen_ok_freeze_position _ _ h

theorem submit_order_orders_lot {ex : SimulatedExchange} (o : SimulatedOrder) (now : ℤ)
    (h : ∀ e ∈ ex.orders, lot_ok_order e.2) :
    ∀ e ∈ ((ex.submit_order o now).2).orders, lot_ok_order e.2 := by
  unfold submit_order
  dsimp only
  repeat' split
  all_goals
    intro e he
  all_goals
    rcases List.mem_append.mp he with h1 | h1
  all_goals
    first
    | exact h e h1
    | (simp only [List.mem_singleton] at h1
       subst h1
       simp [lot_ok_order])

theorem cancel_order_trade_history (ex : SimulatedExchange) (oid : String) (now : ℤ) :
    ((ex.cancel_order oid now).2).trade_history = ex.trade_history := by
  unfold cancel_order
  repeat' split
  all_goals rfl

theorem cancel_order_withdrawable (ex : SimulatedExchange) (oid : String) (now : ℤ) :
    ((ex.cancel_order oid now).2).account.withdrawable_cash = ex.account.withdrawable_cash := by
  unfold cancel_order
  repeat' split
  all_goals
    simp [SimulationAccount.unfreeze_cash_withdrawable,
      SimulationAccount.unfreeze_position_withdrawable]

theorem cancel_order_frozen_ok {ex : SimulatedExchange} (oid : String) (now : ℤ)
    (h : pos_frozen_ok ex.account) : pos_frozen_ok ((ex.cancel_order oid now).2).account := by
  unfold cancel_order
  repeat' split
  all_goals
    first
    | exact h
    | exact SimulationAccount.pos_frozen_ok_unfreeze_cash _ h
    | exact SimulationAccount.pos_frozen_ok_unfreeze_position _ _ h

theorem cancel_order_orders_lot {ex : SimulatedExchange} (oid : String) (now : ℤ)
    (h : ∀ e ∈ ex.orders, lot_ok_order e.2) :
    ∀ e ∈ ((ex.cancel_order oid now).2).orders, lot_ok_order e.2 := by
  unfold cancel_order
  dsimp only
  repeat' split
  all_goals intro e he
  all_goals
    first
    | exact h e he
    | (refine alist_update_pres lot_ok_order _ _ h ?_ e he
       intro w _
       simp [lot_ok_order])

end SimulatedExchange

theorem apply_core_withdrawable (ex : SimulatedExchange) (op : CoreOp)
    (h : op.is_daily_settlement = false) :
    (apply_core ex op).account.withdrawable_cash = ex.account.withdrawable_cash := by
  cases op with
  | submitOrder o now => exact SimulatedExchange.submit_order_withdrawable ex o now
  | onTick t us => exact SimulatedExchange.on_tick_withdrawable ex t us
  | cancelOrder oid now => exact SimulatedExchange.cancel_order_withdrawable ex oid now
  | updateDaily d => exact SimulationAccount.update_available_volume_withdrawable ex.account d
  | freezeCash x => exact SimulationAccount.freeze_cash_withdrawable ex.account x
  | unfreezeCash x => exact SimulationAccount.unfreeze_cash_withdrawable ex.account x
  | addPosition s v p d => exact SimulationAccount.add_position_withdrawable ex.account s v p d
  | reducePosition s v p => exact SimulationAccount.reduce_position_withdrawable ex.account s v p
  | freezePosition s v => exact SimulationAccount.freeze_position_withdrawable ex.account s v
  | unfreezePosition s v => exact SimulationAccount.unfreeze_position_withdrawable ex.account s v
  | updatePositionPrice s p => exact SimulationAccount.update_position_price_withdrawable ex.account s p
  | updateAvailableVolume d => exact SimulationAccount.update_available_volume_withdrawable ex.account d
  | dailySettlement d => simp [CoreOp.is_daily_settlement] at h

theorem apply_core_frozen_ok {ex : SimulatedExchange} (op : CoreOp)
    (h : pos_frozen_ok ex.account) : pos_frozen_ok (apply_core ex op).account := by
  cases op with
  | submitOrder o now => exact SimulatedExchange.submit_order_frozen_ok o now h
  | onTick t us => exact SimulatedExchange.on_tick_frozen_ok t us h
  | cancelOrder oid now => exact SimulatedExchange.cancel_order_frozen_ok oid now h
  | updateDaily d => exact SimulationAccount.pos_frozen_ok_update_available_volume d h
  | freezeCash x => exact SimulationAccount.pos_frozen_ok_freeze_cash x h
  | unfreezeCash x => exact SimulationAccount.pos_frozen_ok_unfreeze_cash x h
  | addPosition s v p d => exact SimulationAccount.pos_frozen_ok_add_position s v p d h
  | reducePosition s v p => exact SimulationAccount.pos_frozen_ok_reduce_position s v p h
  | freezePosition s v => exact SimulationAccount.pos_frozen_ok_freeze_position s v h
  | unfreezePosition s v => exact SimulationAccount.pos_frozen_ok_unfreeze_position s v h
  | updatePositionPrice s p => exact SimulationAccount.pos_frozen_ok_update_position_price s p h
  | updateAvailableVolume d => exact SimulationAccount.pos_frozen_ok_update_available_volume d h
  | dailySettlement d => exact SimulationAccount.pos_frozen_ok_daily_settlement d h

theorem apply_core_good {ex : SimulatedExchange} (op : CoreOp)
    (h : exchange_good ex) : exchange_good (apply_core ex op) := by
  obtain ⟨h1, h2⟩ := h
  cases op with
  | submitOrder o now =>
    simp only [apply_core]
    refine ⟨SimulatedExchange.submit_order_orders_lot o now h1, ?_⟩
    rw [SimulatedExchange.submit_order_trade_history]
    exact h2
  | onTick t us => exact SimulatedExchange.on_tick_good t us ⟨h1, h2⟩
  | cancelOrder oid now =>
    simp only [apply_core]
    refine ⟨SimulatedExchange.cancel_order_orders_lot oid now h1, ?_⟩
    rw [SimulatedExchange.cancel_order_trade_history]
    exact h2
  | updateDaily d => exact ⟨h1, h2⟩
  | freezeCash x => exact ⟨h1, h2⟩
  | unfreezeCash x => exact ⟨h1, h2⟩
  | addPosition s v p d => exact ⟨h1, h2⟩
  | reducePosition s v p => exact ⟨h1, h2⟩
  | freezePosition s v => exact ⟨h1, h2⟩
  | unfreezePosition s v => exact ⟨h1, h2⟩
  | updatePositionPrice s p => exact ⟨h1, h2⟩
  | updateAvailableVolume d => exact ⟨h1, h2⟩
  | dailySettlement d => exact ⟨h1, h2⟩

theorem run_core_good (ex : SimulatedExchange) (ops : List CoreOp)
    (h : exchange_good ex) : exchange_good (run_core ex ops) := by
  induction ops generalizing ex with
  | nil => exact h
  | cons op rest ih => exact ih _ (apply_core_good op h)

theorem run_core_frozen_ok (ex : SimulatedExchange) (ops : List CoreOp)
    (h : pos_frozen_ok ex.account) : pos_frozen_ok (run_core ex ops).account := by
  induction ops generalizing ex with
  | nil => exact h
  | cons op rest ih => exact ih _ (apply_core_frozen_ok op h)

theorem init_exchange_good (id : String) (cap : ℚ) :
    exchange_good (SimulatedExchange.init id cap) := by
  constructor <;> intro e he <;> simp [SimulatedExchange.init] at he

theorem init_frozen_ok (id : String) (cap : ℚ) :
    pos_frozen_ok (SimulatedExchange.init id cap).account := by
  intro e he
  simp [SimulatedExchange.init, SimulationAccount.init] at he

-- ===========================================================================
-- Evaluation of the demo run, one public call at a time.
-- ===========================================================================

theorem get_limit_pct_600000 : OrderMatcher.get_limit_pct "600000" = 10/100 := rfl

theorem list_headD_mem {α : Type} {l : List α} (d : α) (h : l ≠ []) : l.headD d ∈ l := by
  cases l with
  | nil => exact absurd rfl h
  | cons x xs => exact List.mem_cons_self x xs

theorem demo_step1 :
    apply_core (SimulatedExchange.init "ACC" 100000) (CoreOp.submitOrder demo_buy_order 1000) =
      demo_ex1 := by
  simp [apply_core, demo_ex1, demo_buy_order, demo_buy_stored,
    SimulatedExchange.init, SimulationAccount.init,
    SimulatedExchange.submit_order, SimulatedExchange.generate_order_id,
    SimulatedExchange.freeze_amount_of,
    SimulationAccount.freeze_cash, round_to_cent, cppRound]
  norm_num
  decide

theorem demo_tm1 : OrderMatcher.try_match_order demo_buy_stored demo_tick1 true 0 =
    MatchResult.filled 10 200 := by
  have htd : Int.tdiv 100000 10 = 10000 := by decide
  simp only [OrderMatcher.try_match_order, OrderMatcher.validate_order_volume,
    demo_buy_stored, demo_buy_order, demo_tick1,
    OrderMatcher.check_limit_price, get_limit_pct_600000, OrderMatcher.check_liquidity, htd,
    OrderMatcher.calculate_slippage, OrderMatcher.default_slippage_rate,
    round_to_cent, cppRound]
  norm_num [MatchResult.filled]

theorem demo_step2 : apply_core demo_ex1 (CoreOp.onTick demo_tick1 [0]) = demo_ex2 := by
  have htd : Int.tdiv 86400000 86400000 = 1 := by decide
  have hst : demo_buy_stored.status = OrderStatus.PENDING := rfl
  have hsy : demo_buy_stored.symbol = "600000" := rfl
  have hts : demo_tick1.symbol = "600000" := rfl
  have htl : demo_tick1.last_price = 10 := rfl
  have htt : demo_tick1.timestamp = 86400000 := rfl
  simp only [apply_core, demo_ex1, SimulatedExchange.on_tick,
    SimulatedExchange.tick_pass, SimulationAccount.update_position_price,
    alist_lookup, hst, hsy, hts, htl, htt, htd, List.headD, List.tail]
  norm_num [demo_tm1]
  simp [demo_ex2, SimulatedExchange.process_fill, MatchResult.filled,
    SimulatedExchange.calculate_commission, SimulatedExchange.freeze_amount_of,
    demo_buy_stored, demo_buy_order, demo_pos2, demo_trade1,
    SimulationAccount.unfreeze_cash, SimulationAccount.freeze_cash,
    SimulationAccount.add_position, Position.create, alist_lookup,
    round_to_cent, cppRound, max_def]
  norm_num
  simp [alist_lookup, alist_update, demo_buy_filled, demo_buy_stored, demo_buy_order,
    demo_trade1]
  norm_num
  all_goals decide

theorem demo_step3 : apply_core demo_ex2 (CoreOp.onTick demo_tick2 []) = demo_ex3 := by
  have htd : Int.tdiv 172800000 86400000 = 2 := by decide
  simp [apply_core, demo_ex2, demo_ex3, SimulatedExchange.on_tick,
    SimulatedExchange.tick_pass, SimulationAccount.update_position_price,
    alist_lookup, alist_update, htd, demo_tick2, demo_tick1, demo_pos2,
    demo_buy_filled, demo_buy_stored, demo_buy_order, demo_trade1, round_to_cent, cppRound]
  norm_num

theorem demo_step4 : apply_core demo_ex3 (CoreOp.submitOrder demo_sell_order 2000) =
    demo_ex4 := by
  have htd : Int.tdiv 172800000 86400000 = 2 := by decide
  simp [apply_core, demo_ex3, demo_ex2, demo_ex4, demo_sell_order, demo_buy_order,
    demo_sell_stored, demo_buy_filled, demo_pos2, htd,
    SimulatedExchange.submit_order, SimulatedExchange.generate_order_id,
    SimulatedExchange.freeze_amount_of,
    SimulationAccount.can_sell, SimulationAccount.freeze_position,
    alist_lookup, alist_update, round_to_cent, cppRound]
  norm_num
  all_goals decide

theorem demo_tm2 : OrderMatcher.try_match_order demo_sell_stored demo_tick2 true 0 =
    MatchResult.filled 10 150 := by
  have htd : Int.tdiv 100000 10 = 10000 := by decide
  simp only [OrderMatcher.try_match_order, OrderMatcher.validate_order_volume,
    demo_sell_stored, demo_sell_order, demo_buy_order, demo_tick2, demo_tick1,
    OrderMatcher.check_limit_price, get_limit_pct_600000, OrderMatcher.check_liquidity, htd,
    OrderMatcher.calculate_slippage, OrderMatcher.default_slippage_rate,
    round_to_cent, cppRound]
  simp [MatchResult.filled]
  norm_num

theorem demo_step5 : apply_core demo_ex4 (CoreOp.onTick demo_tick2 [0]) = demo_ex5 := by
  have htd : Int.tdiv 172800000 86400000 = 2 := by decide
  have hb1 : demo_buy_filled.status = OrderStatus.FILLED := rfl
  have hs1 : demo_sell_stored.status = OrderStatus.PENDING := rfl
  have hs2 : demo_sell_stored.symbol = "600000" := rfl
  have hts : demo_tick2.symbol = "600000" := rfl
  have htl : demo_tick2.last_price = 10 := rfl
  have htt : demo_tick2.timestamp = 172800000 := rfl
  simp only [apply_core, demo_ex4, demo_ex3, demo_ex2, SimulatedExchange.on_tick,
    SimulatedExchange.tick_pass, SimulationAccount.update_position_price,
    alist_lookup, alist_update, hb1, hs1, hs2, hts, htl, htt, htd,
    List.headD, List.tail, List.append_eq, List.cons_append, List.nil_append]
  norm_num [demo_tm2, demo_pos2, round_to_cent, cppRound]
  simp [demo_ex5, SimulatedExchange.process_fill, MatchResult.filled,
    SimulatedExchange.calculate_commission, SimulatedExchange.freeze_amount_of,
    demo_sell_filled, demo_buy_filled,
    demo_sell_stored, demo_sell_order, demo_buy_stored, demo_buy_order,
    demo_pos2, demo_trade1, demo_trade2,
    SimulationAccount.unfreeze_cash, SimulationAccount.freeze_cash,
    SimulationAccount.reduce_position, SimulationAccount.unfreeze_position,
    alist_lookup, alist_update, alist_erase,
    round_to_cent, cppRound, max_def]
  norm_num
  all_goals decide

theorem demo_run_eq : demo_run = demo_ex5 := by
  show run_core (SimulatedExchange.init "ACC" 100000) demo_ops = demo_ex5
  unfold run_core demo_ops
  simp only [List.foldl]
  rw [demo_step1, demo_step2, demo_step3, demo_step4, demo_step5]

-- ===========================================================================
-- Remaining helpers: the at-limit tick path and cancellation shape.
-- ===========================================================================

theorem c2_match_result : ∀ u : ℚ, OrderMatcher.try_match_order c2_order c2_tick true u =
    MatchResult.rejected "Price at limit up - queuing" := by
  intro u
  simp only [OrderMatcher.try_match_order, OrderMatcher.validate_order_volume,
    c2_order, demo_buy_order, c2_tick, OrderMatcher.check_limit_price, get_limit_pct_600000]
  norm_num [MatchResult.rejected]

theorem tick_pass_keeps_limit_parked (t : Tick) (cd now : ℤ) :
    ∀ (l : List (String × SimulatedOrder)) (a : SimulationAccount)
      (hist : List TradeRecord) (us : List ℚ) (oid : String) (o : SimulatedOrder),
      (oid, o) ∈ l → o.status = OrderStatus.PENDING → o.symbol = t.symbol →
      (∀ u, (OrderMatcher.try_match_order o t true u).success = false ∧
        "Price at limit".data.isPrefixOf
          (OrderMatcher.try_match_order o t true u).reject_reason.data = true) →
      (oid, o) ∈ (SimulatedExchange.tick_pass t cd now l a hist us).1 := by
  intro l
  induction l with
  | nil =>
    intro a hist us oid o hmem
    simp at hmem
  | cons hd tl ih =>
    intro a hist us oid o hmem hst hsy hu
    obtain ⟨oid2, o2⟩ := hd
    unfold SimulatedExchange.tick_pass
    dsimp only
    rcases List.mem_cons.mp hmem with he | he
    · cases he
      rw [if_pos ⟨hst, hsy⟩]
      have hu0 := hu (us.headD 0)
      have hcl : str_contains
          (OrderMatcher.try_match_order o t true (us.headD 0)).reject_reason "limit" = true :=
        starts_price_at_limit_contains_limit hu0.2
      simp only [hu0.1, Bool.false_eq_true, if_false, hcl, Bool.not_true, Bool.false_and,
        if_false]
      exact List.mem_cons_self _ _
    · split
      · exact List.mem_cons_of_mem _ (ih _ _ _ _ _ he hst hsy hu)
      · exact List.mem_cons_of_mem _ (ih _ _ _ _ _ he hst hsy hu)

theorem cancel_order_noop (ex : SimulatedExchange) (oid : String) (n : ℤ)
    (h : alist_lookup ex.orders oid = none ∨
      ∀ o, alist_lookup ex.orders oid = some o → o.status ≠ OrderStatus.PENDING) :
    SimulatedExchange.cancel_order ex oid n = (false, ex) := by
  unfold SimulatedExchange.cancel_order
  cases hl : alist_lookup ex.orders oid with
  | none => rfl
  | some o =>
    rcases h with h | h
    · rw [hl] at h
      cases h
    · dsimp only
      rw [if_pos (h o hl)]

theorem cancel_order_pending_orders {ex : SimulatedExchange} {oid : String} (n : ℤ)
    {o : SimulatedOrder} (hl : alist_lookup ex.orders oid = some o)
    (hp : o.status = OrderStatus.PENDING) :
    ((SimulatedExchange.cancel_order ex oid n).2).orders =
      alist_update oid
        (fun _ => { o with status := OrderStatus.CANCELLED, cancel_time := n }) ex.orders := by
  unfold SimulatedExchange.cancel_order
  rw [hl]
  dsimp only
  rw [if_neg (by simp [hp])]

-- ===========================================================================
-- Claim theorems.
-- ===========================================================================

/-- Claim C1 (code bug, evaluation at the failing input): in process_fill for
a BUY, the code unfreezes the pessimistic estimate and then runs a
freeze_cash/unfreeze_cash pair on the actual cost, which nets to zero, so
available_cash ends at 101003 (the value right after the estimate was
unfrozen) instead of 101003 minus the actual cost 1005 that the claim (and
the comment in the code) requires. -/
theorem claim_C1_buy_fill_no_debit :
    ((SimulatedExchange.process_fill c1_account [] c1_order c1_match 1 0).2.1).available_cash =
      101003 ∧
    ((SimulatedExchange.process_fill c1_account [] c1_order c1_match 1 0).2.2).map
      (fun r => r.commission) = [5] ∧
    (101003 : ℚ) ≠ 101003 - (100 * 10 + 5) := by
  refine ⟨?_, ?_, by norm_num⟩ <;>
  · simp [SimulatedExchange.process_fill, SimulatedExchange.calculate_commission,
      SimulatedExchange.freeze_amount_of, c1_account, c1_order, c1_match, demo_buy_order,
      MatchResult.filled, SimulationAccount.unfreeze_cash, SimulationAccount.freeze_cash,
      SimulationAccount.add_position, Position.create, alist_lookup, alist_update,
      round_to_cent, cppRound, max_def]
    try norm_num
    try simp [alist_lookup, alist_update]
    try norm_num

/-- Claim C2, counterexample: a PENDING BUY order whose match result is the
at-limit rejection is NOT inserted into any limit-up queue by on_tick
(SimulatedExchange holds no LimitQueue and never calls one); the queue paired
with the exchange stays empty while the order stays PENDING in the registry. -/
theorem claim_C2_counterexample :
    alist_lookup
      ((SimulatedExchange.on_tick_with_queue (c2_ex, LimitQueue.init) c2_tick [0]).2).limit_up_queues
      "600000" = none ∧
    alist_lookup
      ((SimulatedExchange.on_tick_with_queue (c2_ex, LimitQueue.init) c2_tick [0]).1).orders
      "O1" = some c2_order ∧
    c2_order.status = OrderStatus.PENDING := by
  have hcl : str_contains "Price at limit up - queuing" "limit" = true := by decide
  refine ⟨rfl, ?_, rfl⟩
  simp [SimulatedExchange.on_tick_with_queue, SimulatedExchange.on_tick,
    SimulatedExchange.tick_pass, c2_ex, SimulationAccount.update_position_price,
    SimulationAccount.init, alist_lookup, c2_match_result, hcl, MatchResult.rejected]

/-- Claim C2, amended: during on_tick, a PENDING order of the ticked symbol
for which the matcher returns a non-success whose reason begins with the text
Price at limit keeps its PENDING state and registry entry unchanged, and no
limit queue is touched: the order is NOT enqueued anywhere, because
SimulatedExchange owns no LimitQueue. -/
theorem claim_C2_amended :
    ∀ (s : SimulatedExchange × LimitQueue) (tick : Tick) (us : List ℚ)
      (oid : String) (o : SimulatedOrder),
      (oid, o) ∈ s.1.orders → o.status = OrderStatus.PENDING → o.symbol = tick.symbol →
      (∀ u, (OrderMatcher.try_match_order o tick true u).success = false ∧
        "Price at limit".data.isPrefixOf
          (OrderMatcher.try_match_order o tick true u).reject_reason.data = true) →
      (oid, o) ∈ ((SimulatedExchange.on_tick_with_queue s tick us).1).orders ∧
      (SimulatedExchange.on_tick_with_queue s tick us).2 = s.2 := by
  intro s tick us oid o hmem hst hsy hu
  refine ⟨?_, rfl⟩
  unfold SimulatedExchange.on_tick_with_queue SimulatedExchange.on_tick
  dsimp only
  exact tick_pass_keeps_limit_parked tick _ _ _ _ _ _ _ _ hmem hst hsy hu

/-- Claim C2, witness for the amended theorem at the concrete parked order. -/
theorem claim_C2_witness :
    ("O1", c2_order) ∈
      ((SimulatedExchange.on_tick_with_queue (c2_ex, LimitQueue.init) c2_tick [0]).1).orders ∧
    (SimulatedExchange.on_tick_with_queue (c2_ex, LimitQueue.init) c2_tick [0]).2 =
      LimitQueue.init := by
  refine claim_C2_amended (c2_ex, LimitQueue.init) c2_tick [0] "O1" c2_order ?_ rfl rfl ?_
  · simp [c2_ex]
  · intro u
    rw [c2_match_result u]
    exact ⟨rfl, by decide⟩

/-- Claim C3, counterexample: the TradeRecord written by process_fill for a
100000-share BUY of the Shanghai symbol 600000 at 10.00 carries commission
250.00 (the fixed 0.00025 broker rate of the exchange), while the total fee
formula of the claim, with the same default commission rate of the order,
adds the transfer fee and yields 252.00. -/
theorem claim_C3_counterexample :
    ((SimulatedExchange.process_fill c3_account [] c3_order c3_match 1 0).2.2).map
      (fun r => r.commission) = [250] ∧
    OrderMatcher.calculate_total_commission OrderSide.BUY "600000" 10 100000 (25/100000) =
      252 ∧
    ((250 : ℚ) ≠ 252) := by
  have h6 : head_is "600000" '6' = true := by decide
  refine ⟨?_, ?_, by norm_num⟩
  · simp [SimulatedExchange.process_fill, SimulatedExchange.calculate_commission,
      SimulatedExchange.freeze_amount_of, c3_account, c3_order, c3_match, demo_buy_order,
      MatchResult.filled, SimulationAccount.unfreeze_cash, SimulationAccount.freeze_cash,
      SimulationAccount.add_position, Position.create, alist_lookup, alist_update,
      round_to_cent, cppRound, max_def]
    try norm_num
    try simp [alist_lookup, alist_update]
    try norm_num
  · simp [OrderMatcher.calculate_total_commission, OrderMatcher.stamp_tax_rate, h6,
      round_to_cent, cppRound, max_def]
    norm_num

/-- Claim C3, amended: the commission recorded in every TradeRecord of any
run of the public API equals SimulatedExchange.calculate_commission of the
record's own side, price and volume, i.e. broker fee at the fixed default
rate 0.00025 with the 5 yuan floor plus sell-side stamp duty, rounded to
cents; the order's commission_rate and the transfer fee play no part. -/
theorem claim_C3_amended :
    ∀ (id : String) (cap : ℚ) (ops : List CoreOp),
      ∀ r ∈ (run_core (SimulatedExchange.init id cap) ops).trade_history,
        r.commission = SimulatedExchange.calculate_commission r.side r.price r.volume :=
  fun id cap ops r hr =>
    ((run_core_good _ ops (init_exchange_good id cap)).2 r hr).1

/-- Claim C3, witness: the first record of the demo run satisfies the amended
commission equation. -/
theorem claim_C3_witness :
    (demo_run.trade_history.headD TradeRecord.empty).commission =
      SimulatedExchange.calculate_commission
        (demo_run.trade_history.headD TradeRecord.empty).side
        (demo_run.trade_history.headD TradeRecord.empty).price
        (demo_run.trade_history.headD TradeRecord.empty).volume := by
  have hne : demo_run.trade_history ≠ [] := by
    rw [demo_run_eq]
    simp [demo_ex5]
  exact claim_C3_amended "ACC" 100000 demo_ops _ (list_headD_mem _ hne)

/-- Claim C4, counterexample: the claimed position bounds fail after public
Ledger operations.  After buy 100, settle, freeze 100 the position has
available_volume 100 with volume - frozen_volume = 0, violating
available_volume <= volume - frozen_volume; after buy 100, settle, freeze 50,
reduce 60, settle the position has volume 40, available_volume -10 and
frozen_volume 50, violating 0 <= available_volume and frozen_volume <= volume. -/
theorem claim_C4_counterexample :
    ((run_core (SimulatedExchange.init "ACC" 100000) ops_c4a).account.positions.map
      (fun e => (e.2.volume, e.2.available_volume, e.2.frozen_volume)) = [(100, 100, 100)]) ∧
    ¬ ((100 : ℤ) ≤ 100 - 100) ∧
    ((run_core (SimulatedExchange.init "ACC" 100000) ops_c4).account.positions.map
      (fun e => (e.2.volume, e.2.available_volume, e.2.frozen_volume)) = [(40, -10, 50)]) ∧
    ¬ ((0 : ℤ) ≤ -10 ∧ (50 : ℤ) ≤ 40) := by
  refine ⟨?_, by decide, ?_, by decide⟩ <;>
  · simp [run_core, ops_c4, ops_c4a, apply_core, SimulatedExchange.init,
      SimulationAccount.init, SimulationAccount.add_position,
      SimulationAccount.daily_settlement, SimulationAccount.unlock_pos,
      SimulationAccount.freeze_position, SimulationAccount.reduce_position,
      Position.create, alist_lookup, alist_update, alist_erase, round_to_cent, cppRound]
    try norm_num
    try simp [alist_lookup, alist_update, alist_erase]
    try norm_num

/-- Claim C4, amended: after any sequence of public operations from a fresh
exchange, every position still satisfies 0 <= frozen_volume; the stronger
claimed bounds (frozen_volume <= volume, 0 <= available_volume and
available_volume <= volume - frozen_volume) are not maintained by the code,
as the counterexample shows. -/
theorem claim_C4_amended :
    ∀ (id : String) (cap : ℚ) (ops : List CoreOp),
      ∀ e ∈ (run_core (SimulatedExchange.init id cap) ops).account.positions,
        0 ≤ e.2.frozen_volume :=
  fun id cap ops => run_core_frozen_ok _ ops (init_frozen_ok id cap)

/-- Claim C4, witness for the amended theorem: the position bought through a
public Ledger call has nonnegative frozen_volume. -/
theorem claim_C4_witness :
    0 ≤ (((run_core (SimulatedExchange.init "W" 1000)
      [CoreOp.addPosition "600000" 100 10 1]).account.positions.headD
        ("", Position.create "none" 0 0 0)).2).frozen_volume := by
  refine claim_C4_amended "W" 1000 _ _ (list_headD_mem _ ?_)
  simp [run_core, apply_core, SimulatedExchange.init, SimulationAccount.init,
    SimulationAccount.add_position, Position.create, alist_lookup, round_to_cent, cppRound]
  norm_num

/-- Claim C5: every order that ever reaches FILLED with side BUY has a
filled_volume that is a multiple of 100, and every BUY trade record has a
lot-multiple volume (so a BUY of 150 shares can never produce a record),
while the demo run shows a SELL of 150 shares against an unlocked position
of 200 filling and producing a trade record. -/
theorem claim_C5_lot_rule :
    (∀ (id : String) (cap : ℚ) (ops : List CoreOp),
      (∀ e ∈ (run_core (SimulatedExchange.init id cap) ops).orders,
        e.2.status = OrderStatus.FILLED → e.2.side = OrderSide.BUY →
          e.2.filled_volume % 100 = 0) ∧
      (∀ r ∈ (run_core (SimulatedExchange.init id cap) ops).trade_history,
        r.side = OrderSide.BUY → r.volume % 100 = 0)) ∧
    demo_run.orders.map (fun e => (e.2.side, e.2.status, e.2.filled_volume)) =
      [(OrderSide.BUY, OrderStatus.FILLED, 200), (OrderSide.SELL, OrderStatus.FILLED, 150)] ∧
    demo_run.trade_history.map (fun r => (r.side, r.volume)) =
      [(OrderSide.BUY, 200), (OrderSide.SELL, 150)] := by
  refine ⟨fun id cap ops => ?_, ?_, ?_⟩
  · have h := run_core_good _ ops (init_exchange_good id cap)
    exact ⟨fun e he => h.1 e he, fun r hr => ((h.2 r hr).2.2 : _)⟩
  · rw [demo_run_eq]
    simp [demo_ex5, demo_buy_filled, demo_sell_filled, demo_buy_stored, demo_sell_stored,
      demo_buy_order, demo_sell_order]
  · rw [demo_run_eq]
    simp [demo_ex5, demo_trade1, demo_trade2]

/-- Claim C5, witness: the lot-rule invariant applied to the first record of
the demo run. -/
theorem claim_C5_witness :
    (demo_run.trade_history.headD TradeRecord.empty).volume % 100 = 0 := by
  have hne : demo_run.trade_history ≠ [] := by
    rw [demo_run_eq]
    simp [demo_ex5]
  have hside : (demo_run.trade_history.headD TradeRecord.empty).side = OrderSide.BUY := by
    rw [demo_run_eq]
    simp [demo_ex5, demo_trade1]
  exact (claim_C5_lot_rule.1 "ACC" 100000 demo_ops).2 _ (list_headD_mem _ hne) hside

/-- Claim C6: daily_settlement sets withdrawable_cash to available_cash,
clears today_sell_amount, leaves frozen_cash unchanged, and gives every
position bought strictly before the settlement date
available_volume = volume - frozen_volume. -/
theorem claim_C6_daily_settlement :
    ∀ (a : SimulationAccount) (d : ℤ),
      (a.daily_settlement d).withdrawable_cash = (a.daily_settlement d).available_cash ∧
      (a.daily_settlement d).today_sell_amount = 0 ∧
      (a.daily_settlement d).frozen_cash = a.frozen_cash ∧
      ∀ e ∈ (a.daily_settlement d).positions, e.2.buy_date < d →
        e.2.available_volume = e.2.volume - e.2.frozen_volume := by
  intro a d
  refine ⟨rfl, rfl, rfl, ?_⟩
  intro e he hbd
  rcases List.mem_map.mp he with ⟨e0, he0, rfl⟩
  dsimp only at hbd ⊢
  unfold SimulationAccount.unlock_pos at hbd ⊢
  by_cases hb : e0.2.buy_date < d
  · rw [if_pos hb]
  · rw [if_neg hb] at hbd
    exact absurd hbd hb

/-- Claim C6, witness: settlement of the concrete account unlocks its day-1
position on day 2. -/
theorem claim_C6_witness :
    (c6_account.daily_settlement 2).withdrawable_cash =
      (c6_account.daily_settlement 2).available_cash ∧
    (((c6_account.daily_settlement 2).positions.headD
        ("", Position.create "none" 0 0 0)).2).available_volume =
      (((c6_account.daily_settlement 2).positions.headD
        ("", Position.create "none" 0 0 0)).2).volume -
      (((c6_account.daily_settlement 2).positions.headD
        ("", Position.create "none" 0 0 0)).2).frozen_volume := by
  have h := claim_C6_daily_settlement c6_account 2
  refine ⟨h.1, h.2.2.2 _ (list_headD_mem _ ?_) ?_⟩
  · simp [c6_account, SimulationAccount.daily_settlement]
  · decide

/-- Claim C7: a drain of a non-empty per-symbol limit queue of size n releases
exactly max(1, n/10) orders from the front while the last price is still
within 0.01 of the rounded limit price, leaving the remaining n - max(1, n/10)
orders queued in order, and releases all n queued orders in insertion order,
emptying the queue, once the price has opened; stated for the limit-up and
the limit-down queue. -/
theorem claim_C7_queue_drain :
    (∀ (q : LimitQueue) (symbol : String) (tick : Tick) (queue : List SimulatedOrder),
      alist_lookup q.limit_up_queues symbol = some queue → queue ≠ [] →
      0 < tick.last_close →
      ((|tick.last_price - LimitQueue.calculate_limit_up_price symbol tick.last_close| <
          1/100 →
        (q.try_fill_limit_up_orders symbol tick).1 =
          queue.take (max 1 (queue.length / 10)) ∧
        alist_lookup ((q.try_fill_limit_up_orders symbol tick).2).limit_up_queues symbol =
          some (queue.drop (max 1 (queue.length / 10))) ∧
        (queue.take (max 1 (queue.length / 10))).length = max 1 (queue.length / 10) ∧
        (queue.drop (max 1 (queue.length / 10))).length =
          queue.length - max 1 (queue.length / 10)) ∧
       (¬ |tick.last_price - LimitQueue.calculate_limit_up_price symbol tick.last_close| <
          1/100 →
        (q.try_fill_limit_up_orders symbol tick).1 = queue ∧
        ((q.try_fill_limit_up_orders symbol tick).2).limit_up_queues =
          alist_erase symbol q.limit_up_queues ∧
        ((q.limit_up_queues.map Prod.fst).Nodup →
          alist_lookup ((q.try_fill_limit_up_orders symbol tick).2).limit_up_queues symbol =
            none)))) ∧
    (∀ (q : LimitQueue) (symbol : String) (tick : Tick) (queue : List SimulatedOrder),
      alist_lookup q.limit_down_queues symbol = some queue → queue ≠ [] →
      0 < tick.last_close →
      ((|tick.last_price - LimitQueue.calculate_limit_down_price symbol tick.last_close| <
          1/100 →
        (q.try_fill_limit_down_orders symbol tick).1 =
          queue.take (max 1 (queue.length / 10)) ∧
        alist_lookup ((q.try_fill_limit_down_orders symbol tick).2).limit_down_queues symbol =
          some (queue.drop (max 1 (queue.length / 10))) ∧
        (queue.take (max 1 (queue.length / 10))).length = max 1 (queue.length / 10) ∧
        (queue.drop (max 1 (queue.length / 10))).length =
          queue.length - max 1 (queue.length / 10)) ∧
       (¬ |tick.last_price - LimitQueue.calculate_limit_down_price symbol tick.last_close| <
          1/100 →
        (q.try_fill_limit_down_orders symbol tick).1 = queue ∧
        ((q.try_fill_limit_down_orders symbol tick).2).limit_down_queues =
          alist_erase symbol q.limit_down_queues ∧
        ((q.limit_down_queues.map Prod.fst).Nodup →
          alist_lookup ((q.try_fill_limit_down_orders symbol tick).2).limit_down_queues
            symbol = none)))) := by
  constructor
  · intro q symbol tick queue hlook hne hclose
    have hkn : max 1 (queue.length / 10) ≤ queue.length := by
      have h1 : 0 < queue.length := List.length_pos.mpr hne
      have h2 : queue.length / 10 ≤ queue.length := Nat.div_le_self _ _
      omega
    have hemp : queue.isEmpty = false := by
      cases queue with
      | nil => exact absurd rfl hne
      | cons x xs => rfl
    have hatl : LimitQueue.is_at_limit_up symbol tick.last_price tick.last_close =
        decide (|tick.last_price - LimitQueue.calculate_limit_up_price symbol tick.last_close| <
          1/100) := by
      unfold LimitQueue.is_at_limit_up
      rw [if_neg (not_le.mpr hclose)]
    constructor
    · intro hlim
      have hstill : LimitQueue.is_at_limit_up symbol tick.last_price tick.last_close = true := by
        rw [hatl]
        exact decide_eq_true hlim
      unfold LimitQueue.try_fill_limit_up_orders LimitQueue.drain
      rw [hlook, hstill]
      dsimp only
      rw [hemp]
      simp only [Bool.false_eq_true, Bool.true_eq_false, if_false]
      refine ⟨trivial, ?_, ?_, List.length_drop _ _⟩
      · rw [alist_lookup_update_self, hlook]
        rfl
      · rw [List.length_take]
        exact Nat.min_eq_left hkn
    · intro hnlim
      have hstill : LimitQueue.is_at_limit_up symbol tick.last_price tick.last_close = false := by
        rw [hatl]
        exact decide_eq_false hnlim
      unfold LimitQueue.try_fill_limit_up_orders LimitQueue.drain
      rw [hlook, hstill]
      dsimp only
      rw [hemp]
      simp only [Bool.false_eq_true, Bool.true_eq_false, if_false]
      exact ⟨rfl, rfl, fun hn => alist_lookup_erase_nodup hn⟩
  · intro q symbol tick queue hlook hne hclose
    have hkn : max 1 (queue.length / 10) ≤ queue.length := by
      have h1 : 0 < queue.length := List.length_pos.mpr hne
      have h2 : queue.length / 10 ≤ queue.length := Nat.div_le_self _ _
      omega
    have hemp : queue.isEmpty = false := by
      cases queue with
      | nil => exact absurd rfl hne
      | cons x xs => rfl
    have hatl : LimitQueue.is_at_limit_down symbol tick.last_price tick.last_close =
        decide (|tick.last_price - LimitQueue.calculate_limit_down_price symbol tick.last_close| <
          1/100) := by
      unfold LimitQueue.is_at_limit_down
      rw [if_neg (not_le.mpr hclose)]
    constructor
    · intro hlim
      have hstill : LimitQueue.is_at_limit_down symbol tick.last_price tick.last_close = true := by
        rw [hatl]
        exact decide_eq_true hlim
      unfold LimitQueue.try_fill_limit_down_orders LimitQueue.drain
      rw [hlook, hstill]
      dsimp only
      rw [hemp]
      simp only [Bool.false_eq_true, Bool.true_eq_false, if_false]
      refine ⟨trivial, ?_, ?_, List.length_drop _ _⟩
      · rw [alist_lookup_update_self, hlook]
        rfl
      · rw [List.length_take]
        exact Nat.min_eq_left hkn
    · intro hnlim
      have hstill : LimitQueue.is_at_limit_down symbol tick.last_price tick.last_close =
          false := by
        rw [hatl]
        exact decide_eq_false hnlim
      unfold LimitQueue.try_fill_limit_down_orders LimitQueue.drain
      rw [hlook, hstill]
      dsimp only
      rw [hemp]
      simp only [Bool.false_eq_true, Bool.true_eq_false, if_false]
      exact ⟨rfl, rfl, fun hn => alist_lookup_erase_nodup hn⟩

/-- Claim C7, witness: with two orders queued at the limit-up of 600000 and a
tick still at the limit price 11.00, exactly max(1, 2/10) = 1 order drains
from the front and one stays queued. -/
theorem claim_C7_witness :
    (c7_queue.try_fill_limit_up_orders "600000" c7_tick).1 = [c7_o1] ∧
    alist_lookup ((c7_queue.try_fill_limit_up_orders "600000" c7_tick).2).limit_up_queues
      "600000" = some [c7_o2] := by
  have hlook : alist_lookup c7_queue.limit_up_queues "600000" = some [c7_o1, c7_o2] := by
    simp [c7_queue, alist_lookup]
  have hlim : |c7_tick.last_price -
      LimitQueue.calculate_limit_up_price "600000" c7_tick.last_close| < 1/100 := by
    have hup : LimitQueue.calculate_limit_up_price "600000" 10 = 11 := by
      unfold LimitQueue.calculate_limit_up_price
      rw [get_limit_pct_600000]
      norm_num [round_to_cent, cppRound]
    show |(11 : ℚ) - LimitQueue.calculate_limit_up_price "600000" 10| < 1/100
    rw [hup]
    norm_num
  have h := (claim_C7_queue_drain.1 c7_queue "600000" c7_tick [c7_o1, c7_o2] hlook
    (by simp) (by norm_num [c7_tick])).1 hlim
  exact ⟨h.1, h.2.1⟩

/-- Claim C8: every trade record of any run of the public API from a fresh
exchange carries a commission of at least 5 yuan. -/
theorem claim_C8_fee_floor :
    ∀ (id : String) (cap : ℚ) (ops : List CoreOp),
      ∀ r ∈ (run_core (SimulatedExchange.init id cap) ops).trade_history,
        5 ≤ r.commission :=
  fun id cap ops r hr =>
    ((run_core_good _ ops (init_exchange_good id cap)).2 r hr).2.1

/-- Claim C8, witness: the fee floor applied to the first record of the demo
run. -/
theorem claim_C8_witness :
    5 ≤ (demo_run.trade_history.headD TradeRecord.empty).commission := by
  have hne : demo_run.trade_history ≠ [] := by
    rw [demo_run_eq]
    simp [demo_ex5]
  exact claim_C8_fee_floor "ACC" 100000 demo_ops _ (list_headD_mem _ hne)

/-- Claim C9: cancelling an order a second time (after any first cancel,
successful or not) returns false and leaves the whole exchange state
unchanged, and cancel_order of an unknown id or of an order in a non-PENDING
state already returns false without touching the state. -/
theorem claim_C9_idempotent_cancel :
    ∀ (ex : SimulatedExchange) (oid : String) (n1 n2 : ℤ),
      SimulatedExchange.cancel_order ((SimulatedExchange.cancel_order ex oid n1).2) oid n2 =
        (false, (SimulatedExchange.cancel_order ex oid n1).2) ∧
      ((alist_lookup ex.orders oid = none ∨
          ∀ o, alist_lookup ex.orders oid = some o → o.status ≠ OrderStatus.PENDING) →
        SimulatedExchange.cancel_order ex oid n1 = (false, ex)) := by
  intro ex oid n1 n2
  refine ⟨?_, fun h => cancel_order_noop ex oid n1 h⟩
  cases hl : alist_lookup ex.orders oid with
  | none =>
    rw [cancel_order_noop ex oid n1 (Or.inl hl)]
    exact cancel_order_noop ex oid n2 (Or.inl hl)
  | some o =>
    by_cases hp : o.status = OrderStatus.PENDING
    · apply cancel_order_noop
      right
      intro o2 ho2
      rw [cancel_order_pending_orders n1 hl hp, alist_lookup_update_self, hl] at ho2
      cases ho2
      simp
    · have hnoop : SimulatedExchange.cancel_order ex oid n1 = (false, ex) := by
        apply cancel_order_noop
        right
        intro o2 ho2
        rw [hl] at ho2
        cases ho2
        exact hp
      rw [hnoop]
      exact cancel_order_noop ex oid n2 (Or.inr (fun o2 ho2 => by
        rw [hl] at ho2
        cases ho2
        exact hp))

/-- Claim C9, witness: on a fresh exchange an unknown order id gives false
twice without state change. -/
theorem claim_C9_witness :
    SimulatedExchange.cancel_order
      ((SimulatedExchange.cancel_order (SimulatedExchange.init "W" 7) "X" 0).2) "X" 1 =
      (false, (SimulatedExchange.cancel_order (SimulatedExchange.init "W" 7) "X" 0).2) ∧
    SimulatedExchange.cancel_order (SimulatedExchange.init "W" 7) "X" 0 =
      (false, SimulatedExchange.init "W" 7) := by
  have h := claim_C9_idempotent_cancel (SimulatedExchange.init "W" 7) "X" 0 1
  exact ⟨h.1, h.2 (Or.inl rfl)⟩

/-- Claim C10: withdrawable_cash is written only by the account constructor,
which sets it to the initial capital, and by daily_settlement; every other
public operation (the Ledger calls and all exchange entry points that use
them) leaves it unchanged. -/
theorem claim_C10_withdrawable_frame :
    (∀ (id : String) (cap : ℚ), (SimulationAccount.init id cap).withdrawable_cash = cap) ∧
    (∀ (ex : SimulatedExchange) (op : CoreOp), op.is_daily_settlement = false →
      (apply_core ex op).account.withdrawable_cash = ex.account.withdrawable_cash) :=
  ⟨fun _ _ => rfl, fun ex op h => apply_core_withdrawable ex op h⟩

/-- Claim C10, witness: instance at a freeze_cash operation on a fresh
exchange. -/
theorem claim_C10_witness :
    (SimulationAccount.init "W" 5).withdrawable_cash = 5 ∧
    (apply_core (SimulatedExchange.init "W" 5) (CoreOp.freezeCash 1)).account.withdrawable_cash =
      (SimulatedExchange.init "W" 5).account.withdrawable_cash :=
  ⟨claim_C10_withdrawable_frame.1 "W" 5,
   claim_C10_withdrawable_frame.2 (SimulatedExchange.init "W" 5) (CoreOp.freezeCash 1) rfl⟩

end ApexQuant
